import Mathlib

/-!
Verification model of the pocketdIAry server (a Node/Express backend).

The development shallowly embeds the server's core:

* `src/utils/encryption.mjs`: `encryptMessage` / `decryptMessage` are AES-256-CBC
  with a fixed all-zero IV over hex-encoded keys and UTF-8 plaintexts, and
  `createHash` is SHA-256.  The AES-256 block cipher, CBC chaining, PKCS#7
  padding, hex codec and UTF-8 codec that Node's `crypto` and `Buffer` provide
  are modelled executably and in full (the S-boxes and constants are the
  standard AES/SHA-2 ones).  Failure paths (bad key material, bad padding,
  non-block-aligned or malformed-hex ciphertext) are modelled by `Option`:
  `none` stands for a thrown `CryptoError`.
* the PostgreSQL store: a list of `studenti` rows and `note` rows; the
  storage-layer uniqueness constraint on the encrypted email column is the
  `23505` duplicate check performed at insertion.
* `src/controllers/userController.mjs` and the note controller:
  `register`, `login`, `deleteUser`, `updateName`, `updatePassword`,
  `updateTheme`, `addNote`, `getNotes`, `getTodayNotes`, `deleteNote`,
  translated clause by clause, including JavaScript truthiness of the request
  fields and the handler-crash path (`Resp.thrown`) taken when the code
  dereferences a missing field or a crypto call throws outside a `try` block.

Ambient effects are passed explicitly: the process-wide application key
`process.env.ENCRYPT_KEY`, the freshly generated per-user key of `register`,
and the current day (`new Date()` / `CURRENT_DATE`) are parameters.
-/

namespace Pocket

/-- A byte, as stored in Node `Buffer`s. -/
abbrev Byte := Fin 256

/-- Bitwise XOR of two bytes. -/
def bxor (a b : Byte) : Byte :=
  ⟨a.val ^^^ b.val, by
    have h := Nat.xor_lt_two_pow (n := 8) (x := a.val) (y := b.val) (by omega) (by omega)
    omega⟩

/-- Reduce a natural number to a byte. -/
def byteOf (n : Nat) : Byte := ⟨n % 256, Nat.mod_lt _ (by norm_num)⟩

theorem bxor_comm (a b : Byte) : bxor a b = bxor b a := by
  simp [bxor, Nat.xor_comm]

theorem bxor_assoc (a b c : Byte) : bxor (bxor a b) c = bxor a (bxor b c) := by
  simp [bxor, Nat.xor_assoc]

theorem bxor_left_comm (a b c : Byte) : bxor a (bxor b c) = bxor b (bxor a c) := by
  simp [bxor, ← Nat.xor_assoc, Nat.xor_comm a.val]

theorem bxor_zero (a : Byte) : bxor a 0 = a := by
  simp [bxor]

theorem zero_bxor (a : Byte) : bxor 0 a = a := by
  rw [bxor_comm]; exact bxor_zero a

theorem bxor_self (a : Byte) : bxor a a = 0 := by
  simp [bxor]

theorem bxor_cancel (a k : Byte) : bxor (bxor a k) k = a := by
  rw [bxor_assoc, bxor_self, bxor_zero]

/-- Multiplication by x in GF(2^8) with the AES reduction polynomial x^8+x^4+x^3+x+1. -/
def xtime (b : Byte) : Byte :=
  if h : 2 * b.val < 256 then ⟨2 * b.val, h⟩ else byteOf ((2 * b.val) ^^^ 0x11b)

/-- The `Nat`-level body of `xtime`. -/
def xtimeN (n : Nat) : Nat := if 2 * n < 256 then 2 * n else (2 * n ^^^ 0x11b) % 256

theorem xtime_val (b : Byte) : (xtime b).val = xtimeN b.val := by
  unfold xtime xtimeN
  split <;> simp_all [byteOf]

theorem nat_xor_left_comm (a b c : Nat) : a ^^^ (b ^^^ c) = b ^^^ (a ^^^ c) := by
  rw [← Nat.xor_assoc, Nat.xor_comm a b, Nat.xor_assoc]

theorem two_mul_xor (u v : Nat) : 2 * (u ^^^ v) = 2 * u ^^^ 2 * v := by
  have h : ∀ z : Nat, 2 * z = z <<< 1 := fun z => by
    rw [Nat.shiftLeft_eq]; ring
  rw [h, h, h]
  apply Nat.eq_of_testBit_eq
  intro i
  simp only [Nat.testBit_shiftLeft, Nat.testBit_xor]
  cases h1 : decide (1 ≤ i) <;> simp

theorem add_128_eq_xor : ∀ v < 128, 128 + v = 128 ^^^ v := by decide!

theorem add_256_eq_xor : ∀ v < 256, 256 + v = 256 ^^^ v := by decide!

theorem xor_lt_256 {u v : Nat} (hu : u < 256) (hv : v < 256) : u ^^^ v < 256 := by
  have h := Nat.xor_lt_two_pow (n := 8) (x := u) (y := v) (by omega) (by omega)
  omega

theorem xor_lt_128 {u v : Nat} (hu : u < 128) (hv : v < 128) : u ^^^ v < 128 := by
  have h := Nat.xor_lt_two_pow (n := 7) (x := u) (y := v) (by omega) (by omega)
  omega

/-- `xtimeN` on a value with the high bit set, written via the low 7 bits. -/
theorem xtimeN_high (v : Nat) (hv : v < 128) : xtimeN (128 + v) = 2 * v ^^^ 27 := by
  have h1 : ¬ 2 * (128 + v) < 256 := by omega
  have h2 : 2 * (128 + v) ^^^ 0x11b = 2 * v ^^^ 27 := by
    have e1 : 2 * (128 + v) = 256 ^^^ 2 * v := by
      rw [← add_256_eq_xor _ (by omega)]; ring
    have e2 : (0x11b : Nat) = 256 ^^^ 27 := by decide
    rw [e1, e2, Nat.xor_assoc, nat_xor_left_comm (2*v) 256 27, ← Nat.xor_assoc,
      Nat.xor_self, Nat.zero_xor]
  simp only [xtimeN, if_neg h1]
  rw [h2, Nat.mod_eq_of_lt (xor_lt_256 (by omega) (by omega))]

theorem xtimeN_low (v : Nat) (hv : v < 128) : xtimeN v = 2 * v := by
  have h : 2 * v < 256 := by omega
  simp only [xtimeN, if_pos h]

/-- XOR-linearity of `xtimeN` on bytes. -/
theorem xtimeN_xor (x y : Nat) (hx : x < 256) (hy : y < 256) :
    xtimeN (x ^^^ y) = xtimeN x ^^^ xtimeN y := by
  rcases Nat.lt_or_ge x 128 with hx7 | hx7 <;> rcases Nat.lt_or_ge y 128 with hy7 | hy7
  · have hxy : x ^^^ y < 128 := xor_lt_128 hx7 hy7
    rw [xtimeN_low _ hxy, xtimeN_low _ hx7, xtimeN_low _ hy7, two_mul_xor]
  · obtain ⟨y', rfl⟩ : ∃ y', y = 128 + y' := ⟨y - 128, by omega⟩
    have hy' : y' < 128 := by omega
    have hxy : x ^^^ (128 + y') = 128 + (x ^^^ y') := by
      rw [add_128_eq_xor _ hy', add_128_eq_xor _ (xor_lt_128 hx7 hy'), nat_xor_left_comm]
    rw [hxy, xtimeN_high _ (xor_lt_128 hx7 hy'), xtimeN_low _ hx7, xtimeN_high _ hy',
      two_mul_xor, Nat.xor_assoc]
  · obtain ⟨x', rfl⟩ : ∃ x', x = 128 + x' := ⟨x - 128, by omega⟩
    have hx' : x' < 128 := by omega
    have hxy : (128 + x') ^^^ y = 128 + (x' ^^^ y) := by
      rw [add_128_eq_xor _ hx', add_128_eq_xor _ (xor_lt_128 hx' hy7), Nat.xor_assoc]
    rw [hxy, xtimeN_high _ (xor_lt_128 hx' hy7), xtimeN_high _ hx', xtimeN_low _ hy7,
      two_mul_xor, Nat.xor_assoc, Nat.xor_comm (2*y) 27, ← Nat.xor_assoc]
  · obtain ⟨x', rfl⟩ : ∃ x', x = 128 + x' := ⟨x - 128, by omega⟩
    obtain ⟨y', rfl⟩ : ∃ y', y = 128 + y' := ⟨y - 128, by omega⟩
    have hx' : x' < 128 := by omega
    have hy' : y' < 128 := by omega
    have hxy : (128 + x') ^^^ (128 + y') = x' ^^^ y' := by
      rw [add_128_eq_xor _ hx', add_128_eq_xor _ hy', Nat.xor_assoc,
        nat_xor_left_comm x' 128 y', ← Nat.xor_assoc, Nat.xor_self, Nat.zero_xor]
    have hcancel : (2*x' ^^^ 27) ^^^ (2*y' ^^^ 27) = 2*x' ^^^ 2*y' := by
      rw [Nat.xor_assoc, nat_xor_left_comm 27 (2*y') 27, Nat.xor_self, Nat.xor_zero]
    rw [hxy, xtimeN_low _ (xor_lt_128 hx' hy'), xtimeN_high _ hx', xtimeN_high _ hy',
      two_mul_xor, hcancel]

theorem xtime_bxor (a b : Byte) : xtime (bxor a b) = bxor (xtime a) (xtime b) := by
  apply Fin.ext
  show (xtime (bxor a b)).val = (bxor (xtime a) (xtime b)).val
  rw [xtime_val, show (bxor (xtime a) (xtime b)).val = (xtime a).val ^^^ (xtime b).val from rfl,
    xtime_val, xtime_val, show (bxor a b).val = a.val ^^^ b.val from rfl]
  exact xtimeN_xor _ _ a.isLt b.isLt


/-- Russian-peasant multiplication in GF(2^8): `fuel` bits of `a` times `b`. -/
def gmulAux : Nat → Nat → Byte → Byte
  | 0, _, _ => 0
  | f+1, a, b =>
    if a % 2 = 1 then bxor b (gmulAux f (a / 2) (xtime b))
    else gmulAux f (a / 2) (xtime b)

/-- Multiplication of the constant `a` by the byte `b` in GF(2^8). -/
def gmul (a : Nat) (b : Byte) : Byte := gmulAux 8 a b

theorem gmulAux_bxor (f : Nat) : ∀ (a : Nat) (x y : Byte),
    gmulAux f a (bxor x y) = bxor (gmulAux f a x) (gmulAux f a y) := by
  induction f with
  | zero => intro a x y; simp [gmulAux, bxor]
  | succ f ih =>
    intro a x y
    simp only [gmulAux, xtime_bxor, ih]
    split
    · rw [bxor_assoc, bxor_left_comm y, ← bxor_assoc]
    · rfl

theorem gmul_bxor (a : Nat) (x y : Byte) :
    gmul a (bxor x y) = bxor (gmul a x) (gmul a y) := gmulAux_bxor 8 a x y

/-- The AES S-box (FIPS-197 figure 7). -/
def sboxT : List Nat := [
  0x63, 0x7c, 0x77, 0x7b, 0xf2, 0x6b, 0x6f, 0xc5, 0x30, 0x01, 0x67, 0x2b, 0xfe, 0xd7, 0xab, 0x76,
  0xca, 0x82, 0xc9, 0x7d, 0xfa, 0x59, 0x47, 0xf0, 0xad, 0xd4, 0xa2, 0xaf, 0x9c, 0xa4, 0x72, 0xc0,
  0xb7, 0xfd, 0x93, 0x26, 0x36, 0x3f, 0xf7, 0xcc, 0x34, 0xa5, 0xe5, 0xf1, 0x71, 0xd8, 0x31, 0x15,
  0x04, 0xc7, 0x23, 0xc3, 0x18, 0x96, 0x05, 0x9a, 0x07, 0x12, 0x80, 0xe2, 0xeb, 0x27, 0xb2, 0x75,
  0x09, 0x83, 0x2c, 0x1a, 0x1b, 0x6e, 0x5a, 0xa0, 0x52, 0x3b, 0xd6, 0xb3, 0x29, 0xe3, 0x2f, 0x84,
  0x53, 0xd1, 0x00, 0xed, 0x20, 0xfc, 0xb1, 0x5b, 0x6a, 0xcb, 0xbe, 0x39, 0x4a, 0x4c, 0x58, 0xcf,
  0xd0, 0xef, 0xaa, 0xfb, 0x43, 0x4d, 0x33, 0x85, 0x45, 0xf9, 0x02, 0x7f, 0x50, 0x3c, 0x9f, 0xa8,
  0x51, 0xa3, 0x40, 0x8f, 0x92, 0x9d, 0x38, 0xf5, 0xbc, 0xb6, 0xda, 0x21, 0x10, 0xff, 0xf3, 0xd2,
  0xcd, 0x0c, 0x13, 0xec, 0x5f, 0x97, 0x44, 0x17, 0xc4, 0xa7, 0x7e, 0x3d, 0x64, 0x5d, 0x19, 0x73,
  0x60, 0x81, 0x4f, 0xdc, 0x22, 0x2a, 0x90, 0x88, 0x46, 0xee, 0xb8, 0x14, 0xde, 0x5e, 0x0b, 0xdb,
  0xe0, 0x32, 0x3a, 0x0a, 0x49, 0x06, 0x24, 0x5c, 0xc2, 0xd3, 0xac, 0x62, 0x91, 0x95, 0xe4, 0x79,
  0xe7, 0xc8, 0x37, 0x6d, 0x8d, 0xd5, 0x4e, 0xa9, 0x6c, 0x56, 0xf4, 0xea, 0x65, 0x7a, 0xae, 0x08,
  0xba, 0x78, 0x25, 0x2e, 0x1c, 0xa6, 0xb4, 0xc6, 0xe8, 0xdd, 0x74, 0x1f, 0x4b, 0xbd, 0x8b, 0x8a,
  0x70, 0x3e, 0xb5, 0x66, 0x48, 0x03, 0xf6, 0x0e, 0x61, 0x35, 0x57, 0xb9, 0x86, 0xc1, 0x1d, 0x9e,
  0xe1, 0xf8, 0x98, 0x11, 0x69, 0xd9, 0x8e, 0x94, 0x9b, 0x1e, 0x87, 0xe9, 0xce, 0x55, 0x28, 0xdf,
  0x8c, 0xa1, 0x89, 0x0d, 0xbf, 0xe6, 0x42, 0x68, 0x41, 0x99, 0x2d, 0x0f, 0xb0, 0x54, 0xbb, 0x16]

/-- The inverse AES S-box. -/
def invSboxT : List Nat := [
  0x52, 0x09, 0x6a, 0xd5, 0x30, 0x36, 0xa5, 0x38, 0xbf, 0x40, 0xa3, 0x9e, 0x81, 0xf3, 0xd7, 0xfb,
  0x7c, 0xe3, 0x39, 0x82, 0x9b, 0x2f, 0xff, 0x87, 0x34, 0x8e, 0x43, 0x44, 0xc4, 0xde, 0xe9, 0xcb,
  0x54, 0x7b, 0x94, 0x32, 0xa6, 0xc2, 0x23, 0x3d, 0xee, 0x4c, 0x95, 0x0b, 0x42, 0xfa, 0xc3, 0x4e,
  0x08, 0x2e, 0xa1, 0x66, 0x28, 0xd9, 0x24, 0xb2, 0x76, 0x5b, 0xa2, 0x49, 0x6d, 0x8b, 0xd1, 0x25,
  0x72, 0xf8, 0xf6, 0x64, 0x86, 0x68, 0x98, 0x16, 0xd4, 0xa4, 0x5c, 0xcc, 0x5d, 0x65, 0xb6, 0x92,
  0x6c, 0x70, 0x48, 0x50, 0xfd, 0xed, 0xb9, 0xda, 0x5e, 0x15, 0x46, 0x57, 0xa7, 0x8d, 0x9d, 0x84,
  0x90, 0xd8, 0xab, 0x00, 0x8c, 0xbc, 0xd3, 0x0a, 0xf7, 0xe4, 0x58, 0x05, 0xb8, 0xb3, 0x45, 0x06,
  0xd0, 0x2c, 0x1e, 0x8f, 0xca, 0x3f, 0x0f, 0x02, 0xc1, 0xaf, 0xbd, 0x03, 0x01, 0x13, 0x8a, 0x6b,
  0x3a, 0x91, 0x11, 0x41, 0x4f, 0x67, 0xdc, 0xea, 0x97, 0xf2, 0xcf, 0xce, 0xf0, 0xb4, 0xe6, 0x73,
  0x96, 0xac, 0x74, 0x22, 0xe7, 0xad, 0x35, 0x85, 0xe2, 0xf9, 0x37, 0xe8, 0x1c, 0x75, 0xdf, 0x6e,
  0x47, 0xf1, 0x1a, 0x71, 0x1d, 0x29, 0xc5, 0x89, 0x6f, 0xb7, 0x62, 0x0e, 0xaa, 0x18, 0xbe, 0x1b,
  0xfc, 0x56, 0x3e, 0x4b, 0xc6, 0xd2, 0x79, 0x20, 0x9a, 0xdb, 0xc0, 0xfe, 0x78, 0xcd, 0x5a, 0xf4,
  0x1f, 0xdd, 0xa8, 0x33, 0x88, 0x07, 0xc7, 0x31, 0xb1, 0x12, 0x10, 0x59, 0x27, 0x80, 0xec, 0x5f,
  0x60, 0x51, 0x7f, 0xa9, 0x19, 0xb5, 0x4a, 0x0d, 0x2d, 0xe5, 0x7a, 0x9f, 0x93, 0xc9, 0x9c, 0xef,
  0xa0, 0xe0, 0x3b, 0x4d, 0xae, 0x2a, 0xf5, 0xb0, 0xc8, 0xeb, 0xbb, 0x3c, 0x83, 0x53, 0x99, 0x61,
  0x17, 0x2b, 0x04, 0x7e, 0xba, 0x77, 0xd6, 0x26, 0xe1, 0x69, 0x14, 0x63, 0x55, 0x21, 0x0c, 0x7d]

/-- S-box substitution of one byte. -/
def sbox (b : Byte) : Byte := byteOf (sboxT.getD b.val 0)

/-- Inverse S-box substitution of one byte. -/
def invSbox (b : Byte) : Byte := byteOf (invSboxT.getD b.val 0)

set_option maxRecDepth 100000 in
theorem invSbox_sbox : ∀ b : Byte, invSbox (sbox b) = b := by decide!

/-- One column of the AES state (or one word of the key schedule). -/
structure Col where
  b0 : Byte
  b1 : Byte
  b2 : Byte
  b3 : Byte
deriving DecidableEq, Repr

/-- One 16-byte AES block, column-major as FIPS-197 lays out the state. -/
structure Blk where
  c0 : Col
  c1 : Col
  c2 : Col
  c3 : Col
deriving DecidableEq, Repr

def colZero : Col := ⟨0, 0, 0, 0⟩

def blkZero : Blk := ⟨colZero, colZero, colZero, colZero⟩

def colXor (u v : Col) : Col :=
  ⟨bxor u.b0 v.b0, bxor u.b1 v.b1, bxor u.b2 v.b2, bxor u.b3 v.b3⟩

def blkXor (u v : Blk) : Blk :=
  ⟨colXor u.c0 v.c0, colXor u.c1 v.c1, colXor u.c2 v.c2, colXor u.c3 v.c3⟩

theorem colXor_cancel (u k : Col) : colXor (colXor u k) k = u := by
  cases u; cases k; simp [colXor, bxor_cancel]

theorem blkXor_cancel (u k : Blk) : blkXor (blkXor u k) k = u := by
  cases u; cases k; simp [blkXor, colXor_cancel]

/-- SubBytes. -/
def subBytes (s : Blk) : Blk :=
  let f : Col → Col := fun c => ⟨sbox c.b0, sbox c.b1, sbox c.b2, sbox c.b3⟩
  ⟨f s.c0, f s.c1, f s.c2, f s.c3⟩

/-- InvSubBytes. -/
def invSubBytes (s : Blk) : Blk :=
  let f : Col → Col := fun c => ⟨invSbox c.b0, invSbox c.b1, invSbox c.b2, invSbox c.b3⟩
  ⟨f s.c0, f s.c1, f s.c2, f s.c3⟩

theorem invSubBytes_subBytes (s : Blk) : invSubBytes (subBytes s) = s := by
  obtain ⟨⟨a0,a1,a2,a3⟩,⟨b0,b1,b2,b3⟩,⟨c0,c1,c2,c3⟩,⟨d0,d1,d2,d3⟩⟩ := s
  simp [subBytes, invSubBytes, invSbox_sbox]

/-- ShiftRows: row r of the state is rotated left by r. -/
def shiftRows (s : Blk) : Blk :=
  match s with
  | ⟨⟨a0,a1,a2,a3⟩,⟨b0,b1,b2,b3⟩,⟨c0,c1,c2,c3⟩,⟨d0,d1,d2,d3⟩⟩ =>
    ⟨⟨a0,b1,c2,d3⟩, ⟨b0,c1,d2,a3⟩, ⟨c0,d1,a2,b3⟩, ⟨d0,a1,b2,c3⟩⟩

/-- InvShiftRows: row r of the state is rotated right by r. -/
def invShiftRows (s : Blk) : Blk :=
  match s with
  | ⟨⟨a0,a1,a2,a3⟩,⟨b0,b1,b2,b3⟩,⟨c0,c1,c2,c3⟩,⟨d0,d1,d2,d3⟩⟩ =>
    ⟨⟨a0,d1,c2,b3⟩, ⟨b0,a1,d2,c3⟩, ⟨c0,b1,a2,d3⟩, ⟨d0,c1,b2,a3⟩⟩

theorem invShiftRows_shiftRows (s : Blk) : invShiftRows (shiftRows s) = s := by
  obtain ⟨⟨a0,a1,a2,a3⟩,⟨b0,b1,b2,b3⟩,⟨c0,c1,c2,c3⟩,⟨d0,d1,d2,d3⟩⟩ := s
  rfl

/-- MixColumns on one column. -/
def mixCol (c : Col) : Col :=
  ⟨bxor (gmul 2 c.b0) (bxor (gmul 3 c.b1) (bxor (gmul 1 c.b2) (gmul 1 c.b3))),
   bxor (gmul 1 c.b0) (bxor (gmul 2 c.b1) (bxor (gmul 3 c.b2) (gmul 1 c.b3))),
   bxor (gmul 1 c.b0) (bxor (gmul 1 c.b1) (bxor (gmul 2 c.b2) (gmul 3 c.b3))),
   bxor (gmul 3 c.b0) (bxor (gmul 1 c.b1) (bxor (gmul 1 c.b2) (gmul 2 c.b3)))⟩

/-- InvMixColumns on one column. -/
def invMixCol (c : Col) : Col :=
  ⟨bxor (gmul 14 c.b0) (bxor (gmul 11 c.b1) (bxor (gmul 13 c.b2) (gmul 9 c.b3))),
   bxor (gmul 9 c.b0) (bxor (gmul 14 c.b1) (bxor (gmul 11 c.b2) (gmul 13 c.b3))),
   bxor (gmul 13 c.b0) (bxor (gmul 9 c.b1) (bxor (gmul 14 c.b2) (gmul 11 c.b3))),
   bxor (gmul 11 c.b0) (bxor (gmul 13 c.b1) (bxor (gmul 9 c.b2) (gmul 14 c.b3)))⟩

def colE0 (x : Byte) : Col := ⟨x, 0, 0, 0⟩
def colE1 (x : Byte) : Col := ⟨0, x, 0, 0⟩
def colE2 (x : Byte) : Col := ⟨0, 0, x, 0⟩
def colE3 (x : Byte) : Col := ⟨0, 0, 0, x⟩

theorem col_decomp (c : Col) :
    c = colXor (colE0 c.b0) (colXor (colE1 c.b1) (colXor (colE2 c.b2) (colE3 c.b3))) := by
  cases c
  simp [colXor, colE0, colE1, colE2, colE3, bxor_zero, zero_bxor]

theorem mixCol_xor (u v : Col) : mixCol (colXor u v) = colXor (mixCol u) (mixCol v) := by
  cases u; cases v
  simp only [mixCol, colXor, gmul_bxor, Col.mk.injEq]
  refine ⟨?_, ?_, ?_, ?_⟩ <;>
    simp [bxor_assoc, bxor_left_comm, bxor_comm]

theorem invMixCol_xor (u v : Col) :
    invMixCol (colXor u v) = colXor (invMixCol u) (invMixCol v) := by
  cases u; cases v
  simp only [invMixCol, colXor, gmul_bxor, Col.mk.injEq]
  refine ⟨?_, ?_, ?_, ?_⟩ <;>
    simp [bxor_assoc, bxor_left_comm, bxor_comm]

set_option maxRecDepth 100000 in
theorem invMixCol_mixCol_e0 : ∀ x : Byte, invMixCol (mixCol (colE0 x)) = colE0 x := by decide!

set_option maxRecDepth 100000 in
theorem invMixCol_mixCol_e1 : ∀ x : Byte, invMixCol (mixCol (colE1 x)) = colE1 x := by decide!

set_option maxRecDepth 100000 in
theorem invMixCol_mixCol_e2 : ∀ x : Byte, invMixCol (mixCol (colE2 x)) = colE2 x := by decide!

set_option maxRecDepth 100000 in
theorem invMixCol_mixCol_e3 : ∀ x : Byte, invMixCol (mixCol (colE3 x)) = colE3 x := by decide!

theorem invMixCol_mixCol (c : Col) : invMixCol (mixCol c) = c := by
  conv_lhs => rw [col_decomp c]
  rw [mixCol_xor, mixCol_xor, mixCol_xor, invMixCol_xor, invMixCol_xor, invMixCol_xor,
    invMixCol_mixCol_e0, invMixCol_mixCol_e1, invMixCol_mixCol_e2, invMixCol_mixCol_e3,
    ← col_decomp]

/-- MixColumns on the whole state. -/
def mixColumns (s : Blk) : Blk := ⟨mixCol s.c0, mixCol s.c1, mixCol s.c2, mixCol s.c3⟩

/-- InvMixColumns on the whole state. -/
def invMixColumns (s : Blk) : Blk :=
  ⟨invMixCol s.c0, invMixCol s.c1, invMixCol s.c2, invMixCol s.c3⟩

theorem invMixColumns_mixColumns (s : Blk) : invMixColumns (mixColumns s) = s := by
  cases s; simp [mixColumns, invMixColumns, invMixCol_mixCol]

/-- AddRoundKey. -/
def addRoundKey (k s : Blk) : Blk := blkXor s k

theorem addRoundKey_addRoundKey (k s : Blk) : addRoundKey k (addRoundKey k s) = s :=
  blkXor_cancel s k


/-- The middle and final AES rounds, driven by the remaining round keys:
each listed key except the last one is a full round, the last is the final
round without MixColumns. -/
def encRounds : List Blk → Blk → Blk
  | [], s => s
  | [k], s => addRoundKey k (shiftRows (subBytes s))
  | k :: k' :: ks, s =>
    encRounds (k' :: ks) (addRoundKey k (mixColumns (shiftRows (subBytes s))))

/-- The inverse of `encRounds`, undoing the rounds in reverse order. -/
def decRounds : List Blk → Blk → Blk
  | [], s => s
  | [k], s => invSubBytes (invShiftRows (addRoundKey k s))
  | k :: k' :: ks, s =>
    invSubBytes (invShiftRows (invMixColumns (addRoundKey k (decRounds (k' :: ks) s))))

theorem decRounds_encRounds : ∀ (ks : List Blk) (s : Blk), decRounds ks (encRounds ks s) = s := by
  intro ks
  induction ks with
  | nil => intro s; rfl
  | cons k ks ih =>
    cases ks with
    | nil =>
      intro s
      simp [encRounds, decRounds, addRoundKey_addRoundKey, invShiftRows_shiftRows,
        invSubBytes_subBytes]
    | cons k' ks' =>
      intro s
      simp only [encRounds, decRounds, ih, addRoundKey_addRoundKey,
        invMixColumns_mixColumns, invShiftRows_shiftRows, invSubBytes_subBytes]

/-- AES block encryption from an expanded key schedule (initial AddRoundKey,
then the rounds). -/
def aesEncrypt (ks : List Blk) (s : Blk) : Blk :=
  match ks with
  | [] => s
  | k0 :: rest => encRounds rest (addRoundKey k0 s)

/-- AES block decryption from the same expanded key schedule. -/
def aesDecrypt (ks : List Blk) (s : Blk) : Blk :=
  match ks with
  | [] => s
  | k0 :: rest => addRoundKey k0 (decRounds rest s)

theorem aesDecrypt_aesEncrypt (ks : List Blk) (s : Blk) :
    aesDecrypt ks (aesEncrypt ks s) = s := by
  cases ks with
  | nil => rfl
  | cons k0 rest =>
    simp [aesEncrypt, aesDecrypt, decRounds_encRounds, addRoundKey_addRoundKey]

/-- RotWord of the key schedule. -/
def rotWord (c : Col) : Col := ⟨c.b1, c.b2, c.b3, c.b0⟩

/-- SubWord of the key schedule. -/
def subWord (c : Col) : Col := ⟨sbox c.b0, sbox c.b1, sbox c.b2, sbox c.b3⟩

/-- Round constants (only indices 1..7 are used by AES-256). -/
def rconByte (i : Nat) : Byte :=
  byteOf ([1, 2, 4, 8, 16, 32, 64, 128, 27, 54].getD (i - 1) 0)

/-- One key-schedule step producing word `i`; the words so far are kept in
reverse order (most recent first). -/
def ksStep (i : Nat) (wsRev : List Col) : List Col :=
  let wPrev := wsRev.headD colZero
  let w8 := wsRev.getD 7 colZero
  let temp :=
    if i % 8 = 0 then colXor (subWord (rotWord wPrev)) ⟨rconByte (i / 8), 0, 0, 0⟩
    else if i % 8 = 4 then subWord wPrev
    else wPrev
  colXor w8 temp :: wsRev

def ksAux : Nat → Nat → List Col → List Col
  | 0, _, ws => ws
  | n+1, i, ws => ksAux n (i + 1) (ksStep i ws)

/-- The AES-256 key schedule: 32 key bytes to 15 round keys. -/
def expandKey (kb : List Byte) : List Blk :=
  let w07 : List Col := (List.range 8).map fun i =>
    ⟨kb.getD (4*i) 0, kb.getD (4*i+1) 0, kb.getD (4*i+2) 0, kb.getD (4*i+3) 0⟩
  let ws := (ksAux 52 8 w07.reverse).reverse
  (List.range 15).map fun r =>
    ⟨ws.getD (4*r) colZero, ws.getD (4*r+1) colZero,
     ws.getD (4*r+2) colZero, ws.getD (4*r+3) colZero⟩


/-- PKCS#7 padding to a whole number of 16-byte blocks, as OpenSSL applies it. -/
def pkcs7pad (m : List Byte) : List Byte :=
  let p := 16 - m.length % 16
  m ++ List.replicate p (byteOf p)

/-- PKCS#7 unpadding of the reversed byte list; `none` is OpenSSL's
`bad decrypt` padding failure. -/
def unpadRev : List Byte → Option (List Byte)
  | [] => none
  | p :: rest =>
    if 1 ≤ p.val ∧ p.val ≤ 16 ∧ rest.take (p.val - 1) = List.replicate (p.val - 1) p
    then some ((rest.drop (p.val - 1)).reverse)
    else none

/-- PKCS#7 unpadding. -/
def pkcs7unpad (l : List Byte) : Option (List Byte) := unpadRev l.reverse

theorem pkcs7unpad_pad (m : List Byte) : pkcs7unpad (pkcs7pad m) = some m := by
  set p := 16 - m.length % 16 with hp
  have hmod : m.length % 16 < 16 := Nat.mod_lt _ (by norm_num)
  have hp1 : 1 ≤ p := by omega
  have hp16 : p ≤ 16 := by omega
  have hpb : (byteOf p).val = p := by simp [byteOf]; omega
  have hcons : ∀ (n : Nat) (a : Byte), 1 ≤ n → List.replicate n a = a :: List.replicate (n-1) a := by
    intro n a h
    cases n with
    | zero => omega
    | succ k => simp [List.replicate_succ]
  have hrev : (pkcs7pad m).reverse
      = byteOf p :: (List.replicate (p-1) (byteOf p) ++ m.reverse) := by
    simp only [pkcs7pad, List.reverse_append, List.reverse_replicate, ← hp]
    rw [hcons p _ hp1]
    simp
  rw [pkcs7unpad, hrev]
  simp only [unpadRev]
  rw [if_pos]
  · rw [hpb, List.drop_left' (by simp), List.reverse_reverse]
  · refine ⟨by omega, by omega, ?_⟩
    rw [hpb, List.take_left' (by simp)]

/-- The 16 bytes of a block, consed onto an accumulator. -/
def blkBytesOnto (b : Blk) (acc : List Byte) : List Byte :=
  b.c0.b0 :: b.c0.b1 :: b.c0.b2 :: b.c0.b3 ::
  b.c1.b0 :: b.c1.b1 :: b.c1.b2 :: b.c1.b3 ::
  b.c2.b0 :: b.c2.b1 :: b.c2.b2 :: b.c2.b3 ::
  b.c3.b0 :: b.c3.b1 :: b.c3.b2 :: b.c3.b3 :: acc

/-- Serialize blocks to bytes. -/
def fromBlocks : List Blk → List Byte
  | [] => []
  | b :: bs => blkBytesOnto b (fromBlocks bs)

/-- Group bytes into 16-byte blocks (an incomplete trailing group is dropped;
the callers only pass block-aligned input). -/
def toBlocks : List Byte → List Blk
  | x0::x1::x2::x3::x4::x5::x6::x7::x8::x9::x10::x11::x12::x13::x14::x15::rest =>
    ⟨⟨x0,x1,x2,x3⟩,⟨x4,x5,x6,x7⟩,⟨x8,x9,x10,x11⟩,⟨x12,x13,x14,x15⟩⟩ :: toBlocks rest
  | _ => []

theorem toBlocks_fromBlocks : ∀ bs : List Blk, toBlocks (fromBlocks bs) = bs
  | [] => rfl
  | b :: bs => by
    obtain ⟨⟨a0,a1,a2,a3⟩,⟨e0,e1,e2,e3⟩,⟨c0,c1,c2,c3⟩,⟨d0,d1,d2,d3⟩⟩ := b
    simp [fromBlocks, blkBytesOnto, toBlocks, toBlocks_fromBlocks bs]

theorem fromBlocks_length_mod (bs : List Blk) : (fromBlocks bs).length % 16 = 0 := by
  induction bs with
  | nil => rfl
  | cons b bs ih =>
    simp only [fromBlocks, blkBytesOnto, List.length_cons]
    omega

theorem fromBlocks_toBlocks : ∀ l : List Byte, l.length % 16 = 0 → fromBlocks (toBlocks l) = l
  | [], _ => rfl
  | [x0], h => by simp at h
  | [x0,x1], h => by simp at h
  | [x0,x1,x2], h => by simp at h
  | [x0,x1,x2,x3], h => by simp at h
  | [x0,x1,x2,x3,x4], h => by simp at h
  | [x0,x1,x2,x3,x4,x5], h => by simp at h
  | [x0,x1,x2,x3,x4,x5,x6], h => by simp at h
  | [x0,x1,x2,x3,x4,x5,x6,x7], h => by simp at h
  | [x0,x1,x2,x3,x4,x5,x6,x7,x8], h => by simp at h
  | [x0,x1,x2,x3,x4,x5,x6,x7,x8,x9], h => by simp at h
  | [x0,x1,x2,x3,x4,x5,x6,x7,x8,x9,x10], h => by simp at h
  | [x0,x1,x2,x3,x4,x5,x6,x7,x8,x9,x10,x11], h => by simp at h
  | [x0,x1,x2,x3,x4,x5,x6,x7,x8,x9,x10,x11,x12], h => by simp at h
  | [x0,x1,x2,x3,x4,x5,x6,x7,x8,x9,x10,x11,x12,x13], h => by simp at h
  | [x0,x1,x2,x3,x4,x5,x6,x7,x8,x9,x10,x11,x12,x13,x14], h => by simp at h
  | x0::x1::x2::x3::x4::x5::x6::x7::x8::x9::x10::x11::x12::x13::x14::x15::rest, h => by
    have h' : rest.length % 16 = 0 := by
      simp only [List.length_cons] at h
      omega
    simp [toBlocks, fromBlocks, blkBytesOnto, fromBlocks_toBlocks rest h']

/-- CBC-mode encryption of a block sequence, chaining from `prev`. -/
def cbcEncBlocks (ks : List Blk) : Blk → List Blk → List Blk
  | _, [] => []
  | prev, p :: ps =>
    let c := aesEncrypt ks (blkXor p prev)
    c :: cbcEncBlocks ks c ps

/-- CBC-mode decryption of a block sequence, chaining from `prev`. -/
def cbcDecBlocks (ks : List Blk) : Blk → List Blk → List Blk
  | _, [] => []
  | prev, c :: cs => blkXor (aesDecrypt ks c) prev :: cbcDecBlocks ks c cs

theorem cbcDecBlocks_cbcEncBlocks (ks : List Blk) :
    ∀ (ps : List Blk) (prev : Blk), cbcDecBlocks ks prev (cbcEncBlocks ks prev ps) = ps := by
  intro ps
  induction ps with
  | nil => intro prev; rfl
  | cons p ps ih =>
    intro prev
    simp only [cbcEncBlocks, cbcDecBlocks, aesDecrypt_aesEncrypt, blkXor_cancel, ih]

/-- AES-256-CBC encryption of a byte string with the all-zero IV that
`encryptMessage` hard-codes (`Buffer.alloc(16, 0)`), PKCS#7-padded. -/
def encryptBytes (kb m : List Byte) : List Byte :=
  fromBlocks (cbcEncBlocks (expandKey kb) blkZero (toBlocks (pkcs7pad m)))

/-- AES-256-CBC decryption; `none` is the `CryptoError` thrown on ciphertext
of non-block length or on a padding check failure. -/
def decryptBytes (kb c : List Byte) : Option (List Byte) :=
  if c.length % 16 = 0
  then pkcs7unpad (fromBlocks (cbcDecBlocks (expandKey kb) blkZero (toBlocks c)))
  else none

theorem pkcs7pad_length_mod (m : List Byte) : (pkcs7pad m).length % 16 = 0 := by
  have hmod : m.length % 16 < 16 := Nat.mod_lt _ (by norm_num)
  simp only [pkcs7pad, List.length_append, List.length_replicate]
  omega

theorem decryptBytes_encryptBytes (kb m : List Byte) :
    decryptBytes kb (encryptBytes kb m) = some m := by
  unfold decryptBytes
  rw [if_pos (by rw [encryptBytes]; exact fromBlocks_length_mod _)]
  unfold encryptBytes
  rw [toBlocks_fromBlocks, cbcDecBlocks_cbcEncBlocks,
    fromBlocks_toBlocks _ (pkcs7pad_length_mod m), pkcs7unpad_pad]


/-- Lowercase hex digits, as Node `Buffer.toString("hex")` produces. -/
def hexDigit (n : Nat) : Char :=
  Char.ofNat (if n < 10 then 48 + n else 87 + n)

/-- Hex-encode a byte string (lowercase). -/
def hexEncodeBytes (l : List Byte) : String :=
  ⟨l.foldr (fun b acc => hexDigit (b.val / 16) :: hexDigit (b.val % 16) :: acc) []⟩

/-- Value of one hex digit; Node accepts both cases. -/
def hexDigitVal (c : Char) : Option Nat :=
  if '0' ≤ c ∧ c ≤ '9' then some (c.toNat - 48)
  else if 'a' ≤ c ∧ c ≤ 'f' then some (c.toNat - 87)
  else if 'A' ≤ c ∧ c ≤ 'F' then some (c.toNat - 55)
  else none

/-- Decode a hex character sequence two digits at a time; `none` models hex
input that Node's `Buffer.from(s, "hex")` cannot decode in full. -/
def hexDecodePairs : List Char → Option (List Byte)
  | [] => some []
  | [_] => none
  | c1 :: c2 :: rest => do
    let hi ← hexDigitVal c1
    let lo ← hexDigitVal c2
    let tl ← hexDecodePairs rest
    return byteOf (16 * hi + lo) :: tl

/-- Decode a hex string to bytes. -/
def hexDecode (s : String) : Option (List Byte) := hexDecodePairs s.data

theorem hexDigitVal_hexDigit : ∀ n < 16, hexDigitVal (hexDigit n) = some n := by decide

theorem hexDecode_hexEncode (l : List Byte) : hexDecode (hexEncodeBytes l) = some l := by
  rw [hexDecode]
  show hexDecodePairs (l.foldr _ []) = some l
  induction l with
  | nil => rfl
  | cons b l ih =>
    have hb := b.isLt
    have h1 := hexDigitVal_hexDigit (b.val / 16) (by omega)
    have h2 := hexDigitVal_hexDigit (b.val % 16) (by omega)
    have h3 : byteOf (16 * (b.val / 16) + b.val % 16) = b := by
      apply Fin.ext
      simp only [byteOf]
      omega
    simp [List.foldr, hexDecodePairs, h1, h2, ih, h3]

theorem char_toNat_lt (c : Char) : c.toNat < 1114112 := by
  rcases c.valid with h | h
  · exact Nat.lt_trans h (by norm_num)
  · exact h.2

/-- UTF-8 encoding of one scalar value (the bytes Node's
`Buffer.from(s, "utf8")` produces for it). -/
def utf8EncodeChar (c : Char) : List Byte :=
  if h1 : c.toNat < 0x80 then [⟨c.toNat, by omega⟩]
  else if h2 : c.toNat < 0x800 then
    [⟨0xc0 + c.toNat / 64, by omega⟩, ⟨0x80 + c.toNat % 64, by omega⟩]
  else if h3 : c.toNat < 0x10000 then
    [⟨0xe0 + c.toNat / 4096, by omega⟩, ⟨0x80 + c.toNat / 64 % 64, by omega⟩,
     ⟨0x80 + c.toNat % 64, by omega⟩]
  else
    [⟨0xf0 + c.toNat / 262144, by have := char_toNat_lt c; omega⟩,
     ⟨0x80 + c.toNat / 4096 % 64, by omega⟩, ⟨0x80 + c.toNat / 64 % 64, by omega⟩,
     ⟨0x80 + c.toNat % 64, by omega⟩]

/-- UTF-8 encoding of a string. -/
def utf8Encode (s : String) : List Byte :=
  s.data.foldr (fun c acc => utf8EncodeChar c ++ acc) []

/-- U+FFFD, substituted by Node for byte sequences that are not valid UTF-8. -/
def replChar : Char := Char.ofNat 0xfffd

/-- Decoder state: nothing pending, or 1-3 continuation bytes still expected,
with the partial codepoint accumulated so far. -/
inductive U8State where
  | start
  | need1 (acc : Nat)
  | need2 (acc : Nat)
  | need3 (acc : Nat)
deriving DecidableEq

/-- Classify a byte arriving with no sequence pending. -/
def utf8Lead (b : Byte) : List Char × U8State :=
  if b.val < 0x80 then ([Char.ofNat b.val], .start)
  else if b.val < 0xc0 then ([replChar], .start)
  else if b.val < 0xe0 then ([], .need1 (b.val - 0xc0))
  else if b.val < 0xf0 then ([], .need2 (b.val - 0xe0))
  else ([], .need3 (b.val - 0xf0))

/-- One byte of lossy UTF-8 decoding: emitted characters and the next state. -/
def utf8Step : U8State → Byte → List Char × U8State
  | .start, b => utf8Lead b
  | .need1 acc, b =>
    if 128 ≤ b.val ∧ b.val < 192 then ([Char.ofNat (acc * 64 + (b.val - 128))], .start)
    else (replChar :: (utf8Lead b).1, (utf8Lead b).2)
  | .need2 acc, b =>
    if 128 ≤ b.val ∧ b.val < 192 then ([], .need1 (acc * 64 + (b.val - 128)))
    else (replChar :: (utf8Lead b).1, (utf8Lead b).2)
  | .need3 acc, b =>
    if 128 ≤ b.val ∧ b.val < 192 then ([], .need2 (acc * 64 + (b.val - 128)))
    else (replChar :: (utf8Lead b).1, (utf8Lead b).2)

/-- Run the decoder; a sequence still pending at the end is one replacement. -/
def utf8DecGo : U8State → List Byte → List Char
  | st, [] => match st with | .start => [] | _ => [replChar]
  | st, b :: rest =>
    let s := utf8Step st b
    s.1 ++ utf8DecGo s.2 rest

/-- Lossy UTF-8 decoding, as Node `Buffer.toString("utf8")`: invalid sequences
become replacement characters, never an error. -/
def utf8Decode (l : List Byte) : List Char := utf8DecGo .start l

theorem utf8DecGo_cons (st : U8State) (b : Byte) (rest : List Byte) :
    utf8DecGo st (b :: rest) = (utf8Step st b).1 ++ utf8DecGo (utf8Step st b).2 rest := rfl

theorem utf8Step_start (b : Byte) : utf8Step .start b = utf8Lead b := rfl

theorem utf8Lead_1 (x : Nat) (hx : x < 256) (h : x < 0x80) :
    utf8Lead ⟨x, hx⟩ = ([Char.ofNat x], .start) := by
  unfold utf8Lead
  simp only [Fin.val_mk]
  rw [if_pos h]

theorem utf8Lead_2 (x : Nat) (hx : x < 256) (h1 : 0xc0 ≤ x) (h2 : x < 0xe0) :
    utf8Lead ⟨x, hx⟩ = ([], .need1 (x - 0xc0)) := by
  unfold utf8Lead
  simp only [Fin.val_mk]
  rw [if_neg (by omega), if_neg (by omega), if_pos h2]

theorem utf8Lead_3 (x : Nat) (hx : x < 256) (h1 : 0xe0 ≤ x) (h2 : x < 0xf0) :
    utf8Lead ⟨x, hx⟩ = ([], .need2 (x - 0xe0)) := by
  unfold utf8Lead
  simp only [Fin.val_mk]
  rw [if_neg (by omega), if_neg (by omega), if_neg (by omega), if_pos h2]

theorem utf8Lead_4 (x : Nat) (hx : x < 256) (h1 : 0xf0 ≤ x) :
    utf8Lead ⟨x, hx⟩ = ([], .need3 (x - 0xf0)) := by
  unfold utf8Lead
  simp only [Fin.val_mk]
  rw [if_neg (by omega), if_neg (by omega), if_neg (by omega), if_neg (by omega)]

theorem utf8Step_cont1 (acc x : Nat) (hx : x < 256) (h1 : 128 ≤ x) (h2 : x < 192) :
    utf8Step (.need1 acc) ⟨x, hx⟩ = ([Char.ofNat (acc * 64 + (x - 128))], .start) := by
  unfold utf8Step
  simp only [Fin.val_mk]
  rw [if_pos ⟨h1, h2⟩]

theorem utf8Step_cont2 (acc x : Nat) (hx : x < 256) (h1 : 128 ≤ x) (h2 : x < 192) :
    utf8Step (.need2 acc) ⟨x, hx⟩ = ([], .need1 (acc * 64 + (x - 128))) := by
  unfold utf8Step
  simp only [Fin.val_mk]
  rw [if_pos ⟨h1, h2⟩]

theorem utf8Step_cont3 (acc x : Nat) (hx : x < 256) (h1 : 128 ≤ x) (h2 : x < 192) :
    utf8Step (.need3 acc) ⟨x, hx⟩ = ([], .need2 (acc * 64 + (x - 128))) := by
  unfold utf8Step
  simp only [Fin.val_mk]
  rw [if_pos ⟨h1, h2⟩]

theorem utf8Decode_encodeChar (c : Char) (rest : List Byte) :
    utf8DecGo .start (utf8EncodeChar c ++ rest) = c :: utf8DecGo .start rest := by
  unfold utf8EncodeChar
  split
  · next h1 =>
    rw [List.singleton_append, utf8DecGo_cons, utf8Step_start, utf8Lead_1 _ _ h1,
      List.singleton_append, Char.ofNat_toNat]
  · split
    · next h1 h2 =>
      rw [Nat.not_lt] at h1
      simp only [List.cons_append, List.nil_append]
      rw [utf8DecGo_cons, utf8Step_start, utf8Lead_2 _ _ (by omega) (by omega),
        List.nil_append, utf8DecGo_cons,
        utf8Step_cont1 _ _ _ (by omega) (by omega), List.singleton_append]
      have harith : (0xc0 + c.toNat / 64 - 0xc0) * 64 + (128 + c.toNat % 64 - 128)
          = c.toNat := by omega
      rw [harith, Char.ofNat_toNat]
    · split
      · next h1 h2 h3 =>
        rw [Nat.not_lt] at h1 h2
        simp only [List.cons_append, List.nil_append]
        rw [utf8DecGo_cons, utf8Step_start, utf8Lead_3 _ _ (by omega) (by omega),
          List.nil_append, utf8DecGo_cons,
          utf8Step_cont2 _ _ _ (by omega) (by omega), List.nil_append, utf8DecGo_cons,
          utf8Step_cont1 _ _ _ (by omega) (by omega), List.singleton_append]
        have harith : ((0xe0 + c.toNat / 4096 - 0xe0) * 64 + (128 + c.toNat / 64 % 64 - 128))
            * 64 + (128 + c.toNat % 64 - 128) = c.toNat := by omega
        rw [harith, Char.ofNat_toNat]
      · next h1 h2 h3 =>
        rw [Nat.not_lt] at h1 h2 h3
        have h4 := char_toNat_lt c
        simp only [List.cons_append, List.nil_append]
        rw [utf8DecGo_cons, utf8Step_start, utf8Lead_4 _ _ (by omega), List.nil_append,
          utf8DecGo_cons, utf8Step_cont3 _ _ _ (by omega) (by omega), List.nil_append,
          utf8DecGo_cons, utf8Step_cont2 _ _ _ (by omega) (by omega), List.nil_append,
          utf8DecGo_cons, utf8Step_cont1 _ _ _ (by omega) (by omega),
          List.singleton_append]
        have harith : (((0xf0 + c.toNat / 262144 - 0xf0) * 64 +
            (128 + c.toNat / 4096 % 64 - 128)) * 64 + (128 + c.toNat / 64 % 64 - 128))
            * 64 + (128 + c.toNat % 64 - 128) = c.toNat := by omega
        rw [harith, Char.ofNat_toNat]

theorem utf8Decode_utf8Encode (s : String) : utf8Decode (utf8Encode s) = s.data := by
  rw [utf8Decode, utf8Encode]
  induction s.data with
  | nil => rfl
  | cons c cs ih => rw [List.foldr_cons, utf8Decode_encodeChar, ih]


/-- The SHA-256 round constants (FIPS-180-4). -/
def shaK : List Nat := [
  1116352408, 1899447441, 3049323471, 3921009573, 961987163, 1508970993,
  2453635748, 2870763221, 3624381080, 310598401, 607225278, 1426881987,
  1925078388, 2162078206, 2614888103, 3248222580, 3835390401, 4022224774,
  264347078, 604807628, 770255983, 1249150122, 1555081692, 1996064986,
  2554220882, 2821834349, 2952996808, 3210313671, 3336571891, 3584528711,
  113926993, 338241895, 666307205, 773529912, 1294757372, 1396182291,
  1695183700, 1986661051, 2177026350, 2456956037, 2730485921, 2820302411,
  3259730800, 3345764771, 3516065817, 3600352804, 4094571909, 275423344,
  430227734, 506948616, 659060556, 883997877, 958139571, 1322822218,
  1537002063, 1747873779, 1955562222, 2024104815, 2227730452, 2361852424,
  2428436474, 2756734187, 3204031479, 3329325298]

/-- The SHA-256 initial hash value. -/
def shaH0 : List Nat := [
  1779033703, 3144134277, 1013904242,
  2773480762, 1359893119, 2600822924,
  528734635, 1541459225]

/-- Rotate a 32-bit word right by `n`. -/
def rotr32 (n x : Nat) : Nat := x / 2^n + x % 2^n * 2^(32-n)

def bsig0 (x : Nat) : Nat := rotr32 2 x ^^^ rotr32 13 x ^^^ rotr32 22 x
def bsig1 (x : Nat) : Nat := rotr32 6 x ^^^ rotr32 11 x ^^^ rotr32 25 x
def ssig0 (x : Nat) : Nat := rotr32 7 x ^^^ rotr32 18 x ^^^ x / 2^3
def ssig1 (x : Nat) : Nat := rotr32 17 x ^^^ rotr32 19 x ^^^ x / 2^10

def shaCh (x y z : Nat) : Nat := (x &&& y) ^^^ ((x ^^^ 0xffffffff) &&& z)
def shaMaj (x y z : Nat) : Nat := (x &&& y) ^^^ (x &&& z) ^^^ (y &&& z)

/-- The 64-entry message schedule of one 64-byte block. -/
def shaW (block : List Byte) : List Nat :=
  let w16 := (List.range 16).map fun i =>
    (block.getD (4*i) 0).val * 16777216 + (block.getD (4*i+1) 0).val * 65536 +
    (block.getD (4*i+2) 0).val * 256 + (block.getD (4*i+3) 0).val
  (List.range 48).foldl (fun ws _ =>
    ws ++ [(ssig1 (ws.getD (ws.length - 2) 0) + ws.getD (ws.length - 7) 0 +
            ssig0 (ws.getD (ws.length - 15) 0) + ws.getD (ws.length - 16) 0) % 2^32]) w16

/-- One SHA-256 compression round over the 8-word state. -/
def shaRound (ws : List Nat) (st : List Nat) (t : Nat) : List Nat :=
  match st with
  | [a, b, c, d, e, f, g, h] =>
    let t1 := (h + bsig1 e + shaCh e f g + shaK.getD t 0 + ws.getD t 0) % 2^32
    let t2 := (bsig0 a + shaMaj a b c) % 2^32
    [(t1 + t2) % 2^32, a, b, c, (d + t1) % 2^32, e, f, g]
  | _ => st

/-- Compress one 64-byte block into the running hash. -/
def shaCompress (h : List Nat) (block : List Byte) : List Nat :=
  let ws := shaW block
  let st := (List.range 64).foldl (shaRound ws) h
  List.zipWith (fun x y => (x + y) % 2^32) h st

/-- Big-endian bytes of a number, `k` bytes wide. -/
def natToBytesBE (k n : Nat) : List Byte :=
  (List.range k).map fun i => byteOf (n / 2^(8*(k-1-i)))

/-- SHA-256 message padding: 0x80, zeros, 64-bit big-endian bit length. -/
def shaPad (msg : List Byte) : List Byte :=
  msg ++ (⟨0x80, by norm_num⟩ : Byte) :: List.replicate ((119 - msg.length % 64) % 64) 0
      ++ natToBytesBE 8 (8 * msg.length)

/-- Split into 64-byte blocks (`fuel` bounds the recursion). -/
def chunk64 : Nat → List Byte → List (List Byte)
  | 0, _ => []
  | fuel+1, l => if l = [] then [] else l.take 64 :: chunk64 fuel (l.drop 64)

/-- SHA-256 of a byte string. -/
def sha256 (msg : List Byte) : List Byte :=
  let padded := shaPad msg
  let hFinal := (chunk64 padded.length padded).foldl shaCompress shaH0
  hFinal.foldr (fun w acc => natToBytesBE 4 w ++ acc) []

/-- `createHash` from `src/utils/encryption.mjs`: the SHA-256 hex digest of
the UTF-8 bytes of `data`. -/
def createHash (data : String) : String := hexEncodeBytes (sha256 (utf8Encode data))

/-- Parse the hex key material handed to `crypto.createCipheriv`: the key must
be hex that decodes to exactly 32 bytes, else the call throws. -/
def parseKey (key : String) : Option (List Byte) :=
  match hexDecode key with
  | some kb => if kb.length = 32 then some kb else none
  | none => none

/-- `encryptMessage` from `src/utils/encryption.mjs`: AES-256-CBC with the
all-zero IV (`Buffer.alloc(16, 0)`), key `Buffer.from(key, "hex")`, plaintext
`Buffer.from(message, "utf8")`, ciphertext hex-encoded.  `none` models the
`CryptoError` thrown on invalid key material. -/
def encryptMessage (key message : String) : Option String :=
  (parseKey key).map fun kb => hexEncodeBytes (encryptBytes kb (utf8Encode message))

/-- `decryptMessage` from `src/utils/encryption.mjs`: the inverse direction;
`none` models the `CryptoError` thrown on invalid key material, on ciphertext
that is not whole-block hex, or on a padding check failure. -/
def decryptMessage (key encryptedMessage : String) : Option String := do
  let kb ← parseKey key
  let cb ← hexDecode encryptedMessage
  let pt ← decryptBytes kb cb
  return ⟨utf8Decode pt⟩

theorem decryptMessage_encryptMessage (key P : String) (kb : List Byte)
    (h : parseKey key = some kb) :
    encryptMessage key P = some (hexEncodeBytes (encryptBytes kb (utf8Encode P))) ∧
    decryptMessage key (hexEncodeBytes (encryptBytes kb (utf8Encode P))) = some P := by
  constructor
  · rw [encryptMessage, h, Option.map_some']
  · simp only [decryptMessage, h, Option.bind_eq_bind, Option.some_bind,
      hexDecode_hexEncode, decryptBytes_encryptBytes, utf8Decode_utf8Encode]
    rfl


/-- A calendar day, the granularity at which the note controller compares
dates after `setHours(0, 0, 0, 0)`. -/
structure SDate where
  year : Nat
  month : Nat
  day : Nat
deriving DecidableEq, Repr

/-- Strict calendar order on days. -/
def dateLt (a b : SDate) : Bool :=
  a.year < b.year ∨ (a.year = b.year ∧
    (a.month < b.month ∨ (a.month = b.month ∧ a.day < b.day)))

def digVal (c : Char) : Option Nat :=
  if '0' ≤ c ∧ c ≤ '9' then some (c.toNat - 48) else none

def isLeapYear (y : Nat) : Bool := (y % 4 = 0 ∧ y % 100 ≠ 0) ∨ y % 400 = 0

def daysInMonth (y m : Nat) : Nat :=
  [31, if isLeapYear y then 29 else 28, 31, 30, 31, 30, 31, 31, 30, 31, 30, 31].getD (m-1) 0

/-- Modelled from the spec: the ECMAScript `new Date(string)` parser applied
to the API's date strings (the runtime's parser is not part of the source
tree).  Date-only ISO strings `YYYY-MM-DD` parse at day granularity; anything
else is an Invalid Date (`isNaN(date.getTime())`). -/
def parseDate (s : String) : Option SDate :=
  match s.data with
  | [y1, y2, y3, y4, '-', m1, m2, '-', d1, d2] => do
    let a ← digVal y1
    let b ← digVal y2
    let c ← digVal y3
    let d ← digVal y4
    let e ← digVal m1
    let f ← digVal m2
    let g ← digVal d1
    let h ← digVal d2
    let y := a * 1000 + b * 100 + c * 10 + d
    let m := e * 10 + f
    let dd := g * 10 + h
    if 1 ≤ m ∧ m ≤ 12 ∧ 1 ≤ dd ∧ dd ≤ daysInMonth y m then some ⟨y, m, dd⟩ else none
  | _ => none

/-- The length JavaScript's `String.prototype.length` reports (UTF-16 units). -/
def jsLength (s : String) : Nat :=
  s.data.foldl (fun n c => n + (if c.toNat < 65536 then 1 else 2)) 0

/-- The characters the ECMAScript regex class `\s` matches. -/
def isJsSpace (c : Char) : Bool :=
  let n := c.toNat
  n = 9 ∨ n = 10 ∨ n = 11 ∨ n = 12 ∨ n = 13 ∨ n = 32 ∨ n = 160 ∨ n = 5760 ∨
    (8192 ≤ n ∧ n ≤ 8202) ∨ n = 8232 ∨ n = 8233 ∨ n = 8239 ∨ n = 8287 ∨
    n = 12288 ∨ n = 65279

/-- `validateEmailFormat` from `src/utils/validation.mjs`: the regex
`^[^\s@]+@[^\s@]+\.[^\s@]+$`.  The string must be one run of non-space
non-`@` characters, an `@`, and a second such run containing a `.` that has
at least one character on each side. -/
def validateEmailFormat (email : String) : Bool :=
  match List.splitOn '@' email.data with
  | [lpart, dpart] =>
    !lpart.isEmpty && lpart.all (fun c => !isJsSpace c) &&
    !dpart.isEmpty && dpart.all (fun c => !isJsSpace c) &&
    (List.range dpart.length).any fun i =>
      decide (1 ≤ i) && decide (i + 1 < dpart.length) && (dpart.getD i ' ' == '.')
  | _ => false

/-- One row of the `studenti` table: encrypted email, password hash, theme,
encrypted name, per-user key. -/
structure StudentRow where
  email : String
  password : String
  ntema : Int
  nome : String
  chiave : String
deriving DecidableEq, Repr

/-- One row of the `note` table: serial id, day, title and text encrypted
with the owner's per-user key, owner's encrypted email. -/
structure NoteRow where
  id : Int
  dataora : SDate
  titolo : String
  testo : String
  idStudente : String
deriving DecidableEq, Repr

/-- The PostgreSQL store: both tables plus the `note.id` serial sequence. -/
structure Db where
  studenti : List StudentRow
  note : List NoteRow
  nextNoteId : Int
deriving DecidableEq, Repr

/-- What `getNotes` returns per note. -/
structure NoteView where
  title : String
  description : String
  dataora : SDate
deriving DecidableEq, Repr

/-- What `getTodayNotes` returns per note (it also exposes the id). -/
structure TodayNoteView where
  id : Int
  title : String
  description : String
  dataora : SDate
deriving DecidableEq, Repr

/-- The HTTP response a handler produces: `success`/`loginOk`/`notesOk`/
`todayNotesOk` are 200-responses with the corresponding JSON payload,
`error` is `sendErrorResponse(res, code, msg)`, and `thrown` is a handler
that crashed on an exception outside any `try` (no response is sent). -/
inductive Resp where
  | success (msg : String)
  | loginOk (key name : String) (theme : Int)
  | notesOk (notes : List NoteView)
  | todayNotesOk (notes : List TodayNoteView)
  | error (code : Nat) (msg : String)
  | thrown (msg : String)
deriving DecidableEq, Repr

/-- Modelled from the spec: `utils/constants.mjs` is imported by the
controllers but is not in the source tree; §7 of the spec and the standalone
server variant fix `ERROR = 400` and `INTERNALERR = 500`. -/
def ERROR : Nat := 400

/-- Modelled from the spec: see `ERROR`. -/
def INTERNALERR : Nat := 500

/-- Placeholder for `err.message` texts the model does not track. -/
def jsErrorMessage : String := "error"

/-- An HTTP request body; absent JSON fields are `none`. -/
structure Body where
  email : Option String := none
  password : Option String := none
  name : Option String := none
  ntema : Option Int := none
  key : Option String := none
  newPassword : Option String := none
  title : Option String := none
  description : Option String := none
  date : Option String := none
  id : Option Int := none
deriving Repr

/-- `register` from `src/controllers/userController.mjs`.  `genKey` is the
value `generateKey()` returned (32 fresh random bytes as hex). -/
def register (appKey genKey : String) (b : Body) (db : Db) : Db × Resp :=
  match b.email, b.password, b.ntema, b.name with
  | some email, some password, some ntema, some name =>
    if email = "" ∨ password = "" ∨ name = "" ∨
        jsLength email > 128 ∨ jsLength password > 128 ∨ jsLength name > 128 then
      (db, .error ERROR "Invalid input parameters.")
    else if ¬ validateEmailFormat email then
      (db, .error ERROR "Invalid email format.")
    else
      match encryptMessage appKey email, encryptMessage appKey name with
      | some encryptedEmail, some encryptedName =>
        let hashedPassword := createHash password
        if db.studenti.any fun r => r.email == encryptedEmail then
          (db, .error ERROR "Email already registered.")
        else
          ({ db with studenti := db.studenti ++
              [⟨encryptedEmail, hashedPassword, ntema, encryptedName, genKey⟩] },
            .success "Registration successful!")
      | _, _ => (db, .error INTERNALERR "An error occurred. Please try again.")
  | _, _, _, _ => (db, .error ERROR "Invalid input parameters.")

/-- `login` from `src/controllers/userController.mjs`. -/
def login (appKey : String) (b : Body) (db : Db) : Db × Resp :=
  match b.email, b.password with
  | some email, some password =>
    if email = "" ∨ password = "" then (db, .error ERROR "Invalid inputs")
    else
      match encryptMessage appKey email with
      | none => (db, .error INTERNALERR jsErrorMessage)
      | some encEmail =>
        let hashed := createHash password
        match db.studenti.filter fun r => r.email == encEmail && r.password == hashed with
        | [] => (db, .error ERROR "Invalid credentials")
        | user :: _ =>
          match decryptMessage appKey user.nome with
          | some name => (db, .loginOk user.chiave name user.ntema)
          | none => (db, .error INTERNALERR jsErrorMessage)
  | _, _ => (db, .error ERROR "Invalid inputs")

/-- `deleteUser` from `src/controllers/userController.mjs`. -/
def deleteUser (appKey : String) (b : Body) (db : Db) : Db × Resp :=
  match b.key, b.email, b.password with
  | some key, some email, some password =>
    if key = "" ∨ email = "" ∨ password = "" then (db, .error ERROR "Invalid inputs")
    else
      match encryptMessage appKey email with
      | none => (db, .thrown jsErrorMessage)
      | some encEmail =>
        let hashed := createHash password
        if (db.studenti.filter fun r =>
            r.chiave == key && r.email == encEmail && r.password == hashed).isEmpty then
          (db, .success "no user found")
        else
          ({ db with studenti := db.studenti.filter fun r =>
              !(r.chiave == key && r.email == encEmail && r.password == hashed) },
            .success "OK")
  | _, _, _ => (db, .error ERROR "Invalid inputs")

/-- `updateName` from `src/controllers/userController.mjs`: a single
conditional `UPDATE`, with no existence check. -/
def updateName (appKey : String) (b : Body) (db : Db) : Db × Resp :=
  match b.key, b.email, b.password, b.name with
  | some key, some email, some password, some name =>
    if key = "" ∨ email = "" ∨ password = "" ∨ name = "" then
      (db, .error ERROR "Invalid inputs")
    else
      match encryptMessage appKey email, encryptMessage appKey name with
      | some encEmail, some encName =>
        let hashed := createHash password
        ({ db with studenti := db.studenti.map fun r =>
            if r.chiave == key && r.email == encEmail && r.password == hashed then
              { r with nome := encName }
            else r },
          .success "OK")
      | _, _ => (db, .thrown jsErrorMessage)
  | _, _, _, _ => (db, .error ERROR "Invalid inputs")

/-- `updatePassword` from `src/controllers/userController.mjs`. -/
def updatePassword (appKey : String) (b : Body) (db : Db) : Db × Resp :=
  match b.key, b.email, b.password, b.newPassword with
  | some key, some email, some password, some newPassword =>
    if key = "" ∨ email = "" ∨ password = "" ∨ newPassword = "" then
      (db, .error ERROR "Invalid inputs")
    else
      match encryptMessage appKey email with
      | some encEmail =>
        let hashed := createHash password
        let newHashed := createHash newPassword
        ({ db with studenti := db.studenti.map fun r =>
            if r.chiave == key && r.email == encEmail && r.password == hashed then
              { r with password := newHashed }
            else r },
          .success "OK")
      | none => (db, .thrown jsErrorMessage)
  | _, _, _, _ => (db, .error ERROR "Invalid inputs")

/-- `updateTheme` from `src/controllers/userController.mjs`; note `!ntema`
is JavaScript truthiness, so the number `0` is "missing". -/
def updateTheme (appKey : String) (b : Body) (db : Db) : Db × Resp :=
  match b.key, b.email, b.password, b.ntema with
  | some key, some email, some password, some ntema =>
    if key = "" ∨ email = "" ∨ password = "" ∨ ntema = 0 then
      (db, .error ERROR "Invalid inputs")
    else
      match encryptMessage appKey email with
      | some encEmail =>
        let hashed := createHash password
        ({ db with studenti := db.studenti.map fun r =>
            if r.chiave == key && r.email == encEmail && r.password == hashed then
              { r with ntema := ntema }
            else r },
          .success "OK")
      | none => (db, .thrown jsErrorMessage)
  | _, _, _, _ => (db, .error ERROR "Invalid inputs")

/-- `addNote` from the note controller.  `today` is `new Date()` at day
granularity.  The code reads `title.length` before the missing-field check,
so a request without `title` crashes with a `TypeError`. -/
def addNote (appKey : String) (today : SDate) (b : Body) (db : Db) : Db × Resp :=
  match b.title with
  | none => (db, .thrown "TypeError: Cannot read properties of undefined (reading 'length')")
  | some title =>
    if jsLength title > 128 then (db, .error ERROR "title is too long")
    else
      match b.key, b.description, b.date, b.email with
      | some key, some description, some date, some email =>
        if key = "" ∨ title = "" ∨ description = "" ∨ date = "" ∨ email = "" then
          (db, .error ERROR "Invalid inputs")
        else
          match parseDate date with
          | none =>
            (db, .error ERROR "Date must be from today and within a reasonable future range.")
          | some noteDate =>
            if dateLt noteDate today ∨ noteDate.year > today.year + 10 then
              (db, .error ERROR "Date must be from today and within a reasonable future range.")
            else
              match encryptMessage appKey email, encryptMessage key title,
                  encryptMessage key description with
              | some encEmail, some encTitle, some encDescription =>
                if db.studenti.any fun r => r.chiave == key && r.email == encEmail then
                  ({ db with
                      note := db.note ++
                        [⟨db.nextNoteId, noteDate, encTitle, encDescription, encEmail⟩],
                      nextNoteId := db.nextNoteId + 1 },
                    .success "OK")
                else (db, .error ERROR "user not found")
              | _, _, _ => (db, .thrown jsErrorMessage)
      | _, _, _, _ => (db, .error ERROR "Invalid inputs")

/-- `getNotes` from the note controller. -/
def getNotes (appKey : String) (b : Body) (db : Db) : Db × Resp :=
  match b.key, b.email, b.date with
  | some key, some email, some date =>
    if key = "" ∨ email = "" ∨ date = "" then (db, .error ERROR "Invalid inputs")
    else
      match encryptMessage appKey email with
      | none => (db, .thrown jsErrorMessage)
      | some encEmail =>
        if db.studenti.any fun r => r.chiave == key && r.email == encEmail then
          match parseDate date with
          | none => (db, .error INTERNALERR jsErrorMessage)
          | some d =>
            let rows := db.note.filter fun n => n.idStudente == encEmail && n.dataora == d
            match rows.mapM (fun n => do
                let t ← decryptMessage key n.titolo
                let de ← decryptMessage key n.testo
                pure (⟨t, de, n.dataora⟩ : NoteView)) with
            | some notes => (db, .notesOk notes)
            | none => (db, .error INTERNALERR jsErrorMessage)
        else (db, .error ERROR "user not found")
  | _, _, _ => (db, .error ERROR "Invalid inputs")

/-- `getTodayNotes` from the note controller; `today` is the database's
`CURRENT_DATE`. -/
def getTodayNotes (appKey : String) (today : SDate) (b : Body) (db : Db) : Db × Resp :=
  match b.key, b.email with
  | some key, some email =>
    if key = "" ∨ email = "" then (db, .error ERROR "Invalid inputs")
    else
      match encryptMessage appKey email with
      | none => (db, .thrown jsErrorMessage)
      | some encEmail =>
        if db.studenti.any fun r => r.chiave == key && r.email == encEmail then
          let rows := db.note.filter fun n => n.idStudente == encEmail && n.dataora == today
          match rows.mapM (fun n => do
              let t ← decryptMessage key n.titolo
              let de ← decryptMessage key n.testo
              pure (⟨n.id, t, de, n.dataora⟩ : TodayNoteView)) with
          | some notes => (db, .todayNotesOk notes)
          | none => (db, .error INTERNALERR "An error occurred on the server.")
        else (db, .error ERROR "User not found")
  | _, _ => (db, .error ERROR "Invalid inputs")

/-- `deleteNote` from the note controller; note `!id` is JavaScript
truthiness, so the id `0` is "missing". -/
def deleteNote (appKey : String) (b : Body) (db : Db) : Db × Resp :=
  match b.key, b.email, b.id with
  | some key, some email, some id =>
    if key = "" ∨ email = "" ∨ id = 0 then (db, .error ERROR "Invalid inputs")
    else
      match encryptMessage appKey email with
      | none => (db, .thrown jsErrorMessage)
      | some encEmail =>
        if db.studenti.any fun r => r.chiave == key && r.email == encEmail then
          ({ db with note := db.note.filter fun n =>
              !(n.id == id && n.idStudente == encEmail) },
            .success "OK")
        else (db, .error ERROR "user not found")
  | _, _, _ => (db, .error ERROR "Invalid inputs")


/-! ### Concrete fixtures used by witnesses and counterexamples -/

/-- A valid 256-bit key: 64 zero hex digits. -/
def keyA : String := String.mk (List.replicate 64 '0')

/-- A second valid 256-bit key, distinct from `keyA`: "01" 32 times. -/
def keyB : String := String.mk ((List.replicate 32 '0').flatMap fun _ => ['0', '1'])

/-- Ciphertext of a string under the application key `keyA`. -/
def encA (s : String) : String := (encryptMessage keyA s).getD ""

/-- Ciphertext of a string under the per-user key `keyB`. -/
def encB (s : String) : String := (encryptMessage keyB s).getD ""

/-- The empty store. -/
def dbEmpty : Db := ⟨[], [], 1⟩

/-- A store holding one registered user: email `a@x.com`, password `pw`,
name `Ann`, theme 1, per-user key `keyB`, under application key `keyA`. -/
def rowAnn : StudentRow :=
  ⟨encA "a@x.com", createHash "pw", 1, encA "Ann", keyB⟩

def dbAnn : Db := ⟨[rowAnn], [], 1⟩

def bodyTheme0 : Body := { key := some "k", email := some "e", password := some "p", ntema := some 0 }

def bodyDelNote0 : Body := { key := some "k", email := some "e", id := some 0 }

def bodyRegAnn0 : Body := { email := some "a@x.com", password := some "pw", name := some "Ann", ntema := some 0 }

def bodyNoTitle : Body := { key := some "k", description := some "d", date := some "2030-01-01", email := some "a@x.com" }

/-! ### C1 -/

/-- C1: for every key `K` whose hex decodes to 32 bytes and every string `P`,
`decryptMessage(K, encryptMessage(K, P)) = P`: encryption succeeds and
decryption returns exactly `P`. -/
theorem C1_decrypt_encrypt (K P : String) (kb : List Byte)
    (h : parseKey K = some kb) :
    ∃ C, encryptMessage K P = some C ∧ decryptMessage K C = some P :=
  ⟨_, (decryptMessage_encryptMessage K P kb h).1,
    (decryptMessage_encryptMessage K P kb h).2⟩

set_option maxRecDepth 100000 in
/-- Witness for C1 at the zero key and the plaintext "hello". -/
theorem C1_witness :
    ∃ C, encryptMessage keyA "hello" = some C ∧ decryptMessage keyA C = some "hello" :=
  C1_decrypt_encrypt keyA "hello" (List.replicate 32 0) (by decide!)

/-! ### C2 -/

/-- C2: `encryptMessage` is deterministic (the IV is the constant zero block
`Buffer.alloc(16, 0)`, so the model is a pure function of key and message):
two calls on identical inputs give identical ciphertexts; likewise
`createHash` is deterministic. -/
theorem C2_deterministic :
    (∀ (K P : String) (c1 c2 : Option String),
      encryptMessage K P = c1 → encryptMessage K P = c2 → c1 = c2) ∧
    (∀ (D h1 h2 : String), createHash D = h1 → createHash D = h2 → h1 = h2) :=
  ⟨fun _ _ _ _ e1 e2 => e1 ▸ e2 ▸ rfl, fun _ _ _ e1 e2 => e1 ▸ e2 ▸ rfl⟩

/-- Witness for C2 at a concrete key, message and password. -/
theorem C2_witness :
    encryptMessage keyA "m" = encryptMessage keyA "m" ∧
    createHash "p" = createHash "p" :=
  ⟨C2_deterministic.1 keyA "m" _ _ rfl rfl, C2_deterministic.2 "p" _ _ rfl rfl⟩

/-! ### C3 -/

/-- The plaintext of the C3 counterexample. -/
def msgP : String := "msg000004"

set_option maxRecDepth 100000 in
/-- C3 counterexample: for the distinct valid keys `keyA` and `keyB` and the
plaintext "msg000004", decrypting under the wrong key does NOT fail: the
wrong-key CBC decryption happens to end in valid PKCS#7 padding, so
`decryptMessage` returns garbage (≠ the plaintext) instead of a
`CryptoError`. -/
theorem C3_counterexample :
    keyA ≠ keyB ∧
    encryptMessage keyA msgP = some "c65fb63c83a1584d36da9dd067d71d2a" ∧
    (decryptMessage keyB "c65fb63c83a1584d36da9dd067d71d2a").isSome = true ∧
    decryptMessage keyB "c65fb63c83a1584d36da9dd067d71d2a" ≠ some msgP := by
  refine ⟨by decide!, by decide!, by decide!, by decide!⟩

/-- C3 amended: for valid keys `K1`, `K2`, decrypting `encrypt(K1, P)` under
`K2` fails with a `CryptoError` exactly when the CBC decryption of the
ciphertext under `K2` does not end in valid PKCS#7 padding.  (For most wrong
keys that check fails — but not always, see the counterexample.) -/
theorem C3_wrong_key_characterization (K1 K2 P : String) (kb1 kb2 : List Byte)
    (h1 : parseKey K1 = some kb1) (h2 : parseKey K2 = some kb2) :
    ∃ C, encryptMessage K1 P = some C ∧
      (decryptMessage K2 C = none ↔
        pkcs7unpad (fromBlocks (cbcDecBlocks (expandKey kb2) blkZero
          (toBlocks (encryptBytes kb1 (utf8Encode P))))) = none) := by
  refine ⟨_, (decryptMessage_encryptMessage K1 P kb1 h1).1, ?_⟩
  simp only [decryptMessage, h2, Option.bind_eq_bind, Option.some_bind, hexDecode_hexEncode]
  rw [decryptBytes, if_pos (by rw [encryptBytes]; exact fromBlocks_length_mod _)]
  cases hY : pkcs7unpad (fromBlocks (cbcDecBlocks (expandKey kb2) blkZero
      (toBlocks (encryptBytes kb1 (utf8Encode P))))) <;> simp [hY]

set_option maxRecDepth 100000 in
/-- Witness for the C3 amended statement at the two concrete keys. -/
theorem C3_wrong_key_characterization_witness :
    ∃ C, encryptMessage keyA msgP = some C ∧
      (decryptMessage keyB C = none ↔
        pkcs7unpad (fromBlocks (cbcDecBlocks (expandKey (List.replicate 32 1)) blkZero
          (toBlocks (encryptBytes (List.replicate 32 0) (utf8Encode msgP))))) = none) :=
  C3_wrong_key_characterization keyA keyB msgP (List.replicate 32 0) (List.replicate 32 1)
    (by decide!) (by decide!)

/-! ### C9 -/

/-- C9: the code, not the claim — an `addNote` request without a `title`
field crashes with a `TypeError` (the handler reads `title.length` before
the missing-field check), instead of returning the "Invalid inputs"
validation error the spec promises. -/
theorem C9_missing_title_crashes :
    addNote keyA ⟨2026, 10, 12⟩ bodyNoTitle dbEmpty
      = (dbEmpty, .thrown "TypeError: Cannot read properties of undefined (reading 'length')") :=
  rfl

/-! ### C10 -/

/-- C10: `updateTheme` with `ntema = 0` and `deleteNote` with `id = 0` are
rejected as "Invalid inputs" (JavaScript truthiness treats the present value
`0` as missing) while `register` accepts theme `0`; so theme 0 can be
registered but never set later, and note id 0 could never be deleted. -/
theorem C10_zero_is_falsy :
    (∀ (appKey : String) (b : Body) (db : Db), b.ntema = some 0 →
      updateTheme appKey b db = (db, .error ERROR "Invalid inputs")) ∧
    (∀ (appKey : String) (b : Body) (db : Db), b.id = some 0 →
      deleteNote appKey b db = (db, .error ERROR "Invalid inputs")) ∧
    (∀ (appKey genKey : String) (b : Body) (db : Db) (email password name encE encN : String),
      b.email = some email → b.password = some password → b.name = some name →
      b.ntema = some 0 →
      email ≠ "" → password ≠ "" → name ≠ "" →
      jsLength email ≤ 128 → jsLength password ≤ 128 → jsLength name ≤ 128 →
      validateEmailFormat email = true →
      encryptMessage appKey email = some encE → encryptMessage appKey name = some encN →
      db.studenti.any (fun r => r.email == encE) = false →
      register appKey genKey b db =
        ({ db with studenti := db.studenti ++ [⟨encE, createHash password, 0, encN, genKey⟩] },
          .success "Registration successful!")) := by
  refine ⟨?_, ?_, ?_⟩
  · intro appKey b db h
    unfold updateTheme
    rcases hk : b.key with _ | k <;> rcases he : b.email with _ | e <;>
      rcases hp : b.password with _ | p <;> simp [hk, he, hp, h]
  · intro appKey b db h
    unfold deleteNote
    rcases hk : b.key with _ | k <;> rcases he : b.email with _ | e <;>
      simp [hk, he, h]
  · intro appKey genKey b db email password name encE encN he hp hn ht hne hpe hnn
      hle hlp hln hfmt hencE hencN hdup
    unfold register
    simp only [he, hp, ht, hn]
    rw [if_neg (by simp [hne, hpe, hnn]; omega), if_neg (by simp [hfmt]), hencE, hencN]
    simp only [hdup]
    simp

set_option maxRecDepth 100000 in
/-- Witness for C10: concrete rejections with value 0, and a concrete
registration with theme 0 that succeeds. -/
theorem C10_witness :
    updateTheme keyA bodyTheme0 dbEmpty = (dbEmpty, .error ERROR "Invalid inputs") ∧
    deleteNote keyA bodyDelNote0 dbEmpty = (dbEmpty, .error ERROR "Invalid inputs") ∧
    register keyA keyB bodyRegAnn0 dbEmpty
      = ({ dbEmpty with studenti :=
            [⟨encA "a@x.com", createHash "pw", 0, encA "Ann", keyB⟩] },
          .success "Registration successful!") := by
  refine ⟨C10_zero_is_falsy.1 keyA _ dbEmpty rfl,
    C10_zero_is_falsy.2.1 keyA _ dbEmpty rfl, ?_⟩
  have h := C10_zero_is_falsy.2.2 keyA keyB bodyRegAnn0
    dbEmpty "a@x.com" "pw" "Ann" (encA "a@x.com") (encA "Ann")
    rfl rfl rfl rfl (by decide) (by decide) (by decide)
    (by decide) (by decide) (by decide) (by decide)
    (by decide!) (by decide!) (by decide)
  exact h


/-! ### C5 -/

/-- C5: login returns the (first) stored record matching the encrypted email
and hashed password — its per-user key, its name decrypted with the
application key, and its theme; and when no record matches (wrong password
and unknown email alike) it returns the one identical "Invalid credentials"
error with the store untouched. -/
theorem C5_login (appKey : String) (b : Body) (db : Db) (email password : String)
    (he : b.email = some email) (hp : b.password = some password)
    (hne : email ≠ "") (hnp : password ≠ "")
    (encE : String) (henc : encryptMessage appKey email = some encE) :
    (∀ (r : StudentRow) (rest : List StudentRow),
      db.studenti.filter (fun r => r.email == encE && r.password == createHash password)
        = r :: rest →
      ∀ name, decryptMessage appKey r.nome = some name →
      login appKey b db = (db, .loginOk r.chiave name r.ntema)) ∧
    (db.studenti.filter (fun r => r.email == encE && r.password == createHash password)
        = [] →
      login appKey b db = (db, .error ERROR "Invalid credentials")) := by
  constructor
  · intro r rest hfilter name hname
    unfold login
    simp only [he, hp]
    rw [if_neg (by simp [hne, hnp])]
    simp only [henc, hfilter, hname]
  · intro hfilter
    unfold login
    simp only [he, hp]
    rw [if_neg (by simp [hne, hnp])]
    simp only [henc, hfilter]

def bodyLoginOk : Body := { email := some "a@x.com", password := some "pw" }

def bodyLoginWrongPw : Body := { email := some "a@x.com", password := some "nope" }

def bodyLoginNoUser : Body := { email := some "b@x.com", password := some "pw" }

set_option maxRecDepth 1000000 in
/-- Witness for C5 on a one-user store: a successful login, a wrong-password
login and an unknown-email login, the latter two with the identical error. -/
theorem C5_witness :
    login keyA bodyLoginOk dbAnn = (dbAnn, .loginOk keyB "Ann" 1) ∧
    login keyA bodyLoginWrongPw dbAnn = (dbAnn, .error ERROR "Invalid credentials") ∧
    login keyA bodyLoginNoUser dbAnn = (dbAnn, .error ERROR "Invalid credentials") :=
  ⟨(C5_login keyA bodyLoginOk dbAnn "a@x.com" "pw" rfl rfl (by decide) (by decide)
      (encA "a@x.com") (by decide!)).1 rowAnn [] (by decide!) "Ann" (by decide!),
   (C5_login keyA bodyLoginWrongPw dbAnn "a@x.com" "nope" rfl rfl (by decide) (by decide)
      (encA "a@x.com") (by decide!)).2 (by decide!),
   (C5_login keyA bodyLoginNoUser dbAnn "b@x.com" "pw" rfl rfl (by decide) (by decide)
      (encA "b@x.com") (by decide!)).2 (by decide!)⟩

/-! ### C6 -/

/-- C6: a well-formed registration for an email whose deterministic
ciphertext already appears in the store fails with "Email already
registered." (the storage-layer uniqueness violation, error code 23505) and
leaves the store unchanged, whatever the password, name and theme. -/
theorem C6_duplicate_email (appKey genKey : String) (b : Body) (db : Db)
    (email password name : String) (ntema : Int)
    (he : b.email = some email) (hp : b.password = some password)
    (hn : b.name = some name) (ht : b.ntema = some ntema)
    (hne : email ≠ "") (hpe : password ≠ "") (hnn : name ≠ "")
    (hle : jsLength email ≤ 128) (hlp : jsLength password ≤ 128) (hln : jsLength name ≤ 128)
    (hfmt : validateEmailFormat email = true)
    (encE : String) (hencE : encryptMessage appKey email = some encE)
    (encN : String) (hencN : encryptMessage appKey name = some encN)
    (hdup : db.studenti.any (fun r => r.email == encE) = true) :
    register appKey genKey b db = (db, .error ERROR "Email already registered.") := by
  unfold register
  simp only [he, hp, ht, hn]
  rw [if_neg (by simp [hne, hpe, hnn]; omega), if_neg (by simp [hfmt]), hencE, hencN]
  simp only [hdup]
  simp

def bodyRegDup : Body := { email := some "a@x.com", password := some "pw2", name := some "Bob", ntema := some 2 }

set_option maxRecDepth 1000000 in
/-- Witness for C6: re-registering `a@x.com` (already in `dbAnn`) with a
different password, name and theme fails and changes nothing. -/
theorem C6_witness :
    register keyA keyB bodyRegDup dbAnn = (dbAnn, .error ERROR "Email already registered.") :=
  C6_duplicate_email keyA keyB bodyRegDup dbAnn "a@x.com" "pw2" "Bob" 2
    rfl rfl rfl rfl (by decide) (by decide) (by decide)
    (by decide) (by decide) (by decide) (by decide)
    (encA "a@x.com") (by decide!) (encA "Bob") (by decide!) (by decide!)

/-! ### C7 -/

/-- C7: a `deleteUser` request carrying a stored user's correct email and
password but the wrong per-user key (emails unique in the store) returns the
success payload `{message: "no user found"}` — not an error — and the store,
including that user's record, is unchanged. -/
theorem C7_deleteUser_wrong_key (appKey : String) (b : Body) (db : Db)
    (key email password : String)
    (hk : b.key = some key) (he : b.email = some email) (hp : b.password = some password)
    (hkne : key ≠ "") (hene : email ≠ "") (hpne : password ≠ "")
    (encE : String) (henc : encryptMessage appKey email = some encE)
    (r : StudentRow) (hr : r ∈ db.studenti) (hremail : r.email = encE)
    (hrpass : r.password = createHash password) (hwrong : r.chiave ≠ key)
    (huniq : ∀ r' ∈ db.studenti, r'.email = encE → r' = r) :
    deleteUser appKey b db = (db, .success "no user found") := by
  unfold deleteUser
  simp only [hk, he, hp]
  rw [if_neg (by simp [hkne, hene, hpne])]
  have hfilter : db.studenti.filter
      (fun r' => r'.chiave == key && r'.email == encE && r'.password == createHash password)
      = [] := by
    rw [List.filter_eq_nil_iff]
    intro r' hr'
    by_cases hmail : r'.email = encE
    · have : r' = r := huniq r' hr' hmail
      subst this
      simp [hwrong]
    · simp [hmail]
  simp only [henc, hfilter]
  simp

def bodyDelWrongKey : Body := { key := some keyA, email := some "a@x.com", password := some "pw" }

set_option maxRecDepth 1000000 in
/-- Witness for C7: deleting `a@x.com` with the right password but key
`keyA` instead of the stored `keyB` reports "no user found" and keeps the
record. -/
theorem C7_witness :
    deleteUser keyA bodyDelWrongKey dbAnn = (dbAnn, .success "no user found") :=
  C7_deleteUser_wrong_key keyA bodyDelWrongKey dbAnn keyA "a@x.com" "pw"
    rfl rfl rfl (by decide) (by decide) (by decide)
    (encA "a@x.com") (by decide!) rowAnn (by decide!) (by decide!) (by decide!)
    (by decide) (by decide!)


/-! ### C8 -/

/-- Adding whole years to a day: the claim-side reading of "n years in the
future". -/
def addYears (n : Nat) (d : SDate) : SDate := ⟨d.year + n, d.month, d.day⟩

/-- A concrete "today". -/
def today26 : SDate := ⟨2026, 10, 12⟩

def bodyFarFuture : Body := { key := some keyB, title := some "T", description := some "D", date := some "2036-12-31", email := some "a@x.com" }

set_option maxRecDepth 1000000 in
/-- C8 counterexample: with today = 2026-10-12, the date 2036-12-31 parses to
a day strictly more than 10 years in the future, yet the otherwise-valid
`addNote` request is accepted: the note is inserted and "OK" returned,
because the code compares calendar years (`getFullYear() > ... + 10`), not
days. -/
theorem C8_counterexample :
    parseDate "2036-12-31" = some ⟨2036, 12, 31⟩ ∧
    dateLt (addYears 10 today26) ⟨2036, 12, 31⟩ = true ∧
    addNote keyA today26 bodyFarFuture dbAnn
      = ({ dbAnn with
            note := [⟨1, ⟨2036, 12, 31⟩, encB "T", encB "D", encA "a@x.com"⟩],
            nextNoteId := 2 },
          .success "OK") := by
  refine ⟨by decide, by decide, by decide!⟩

/-- C8 amended: for an `addNote` request that passes the field checks and
whose date parses, the date-validation rejection happens exactly when the
day is strictly before today or its calendar year exceeds today's year + 10;
on rejection nothing is inserted.  (Days more than 10 years out but within
calendar year `today.year + 10` are accepted — see the counterexample.) -/
theorem C8_date_validation (appKey : String) (today : SDate) (b : Body) (db : Db)
    (key title description date email : String)
    (ht : b.title = some title) (hk : b.key = some key)
    (hd : b.description = some description)
    (hdate : b.date = some date) (he : b.email = some email)
    (hlen : jsLength title ≤ 128)
    (hkne : key ≠ "") (htne : title ≠ "") (hdne : description ≠ "")
    (hdatene : date ≠ "") (hene : email ≠ "")
    (nd : SDate) (hparse : parseDate date = some nd) :
    ((addNote appKey today b db).2
        = .error ERROR "Date must be from today and within a reasonable future range."
      ↔ (dateLt nd today = true ∨ nd.year > today.year + 10)) ∧
    ((dateLt nd today = true ∨ nd.year > today.year + 10) →
      addNote appKey today b db
        = (db, .error ERROR "Date must be from today and within a reasonable future range.")) := by
  unfold addNote
  simp only [ht, hk, hd, hdate, he]
  rw [if_neg (by omega)]
  rw [if_neg (by simp [hkne, htne, hdne, hdatene, hene])]
  simp only [hparse]
  constructor
  · constructor
    · intro hresp
      by_contra hc
      rw [if_neg hc] at hresp
      cases hE : encryptMessage appKey email <;>
        cases hT : encryptMessage key title <;>
        cases hD : encryptMessage key description <;>
        simp only [hE, hT, hD] at hresp <;>
        first
          | (simp at hresp; done)
          | (split at hresp <;> simp at hresp)
    · intro hc
      rw [if_pos hc]
  · intro hc
    rw [if_pos hc]

def bodyPastDate : Body := { key := some keyB, title := some "T", description := some "D", date := some "2025-01-01", email := some "a@x.com" }

/-- Witness for the C8 amended statement: a date strictly before today is
rejected with the date-validation error and nothing is inserted. -/
theorem C8_date_validation_witness :
    addNote keyA today26 bodyPastDate dbAnn
      = (dbAnn, .error ERROR "Date must be from today and within a reasonable future range.") :=
  (C8_date_validation keyA today26 bodyPastDate dbAnn keyB "T" "D" "2025-01-01" "a@x.com"
    rfl rfl rfl rfl rfl (by decide) (by decide) (by decide) (by decide) (by decide)
    (by decide) ⟨2025, 1, 1⟩ (by decide)).2 (Or.inl (by decide))

/-! ### C4 -/

def bodyUpdName : Body := { key := some keyB, email := some "a@x.com", password := some "pw", name := some "Bob" }

set_option maxRecDepth 1000000 in
/-- C4 counterexample: on the empty store — where the presented
`(key, email, password)` triple certainly resolves to no user record —
`updateName` does not fail with a user-not-found result: it answers with the
success payload "OK" (the `UPDATE` simply matches zero rows). -/
theorem C4_counterexample :
    updateName keyA bodyUpdName dbEmpty = (dbEmpty, .success "OK") := by
  decide!

theorem map_if_id {α : Type} (l : List α) (p : α → Bool) (g : α → α)
    (h : ∀ x ∈ l, p x = false) :
    (l.map fun x => if p x then g x else x) = l := by
  induction l with
  | nil => rfl
  | cons a t ih =>
    simp only [List.map_cons, h a (List.mem_cons_self a t)]
    simp only [Bool.false_eq_true, if_false, List.cons.injEq, true_and]
    exact ih fun x hx => h x (List.mem_cons_of_mem a hx)

/-- C4 amended: the four note operations and `deleteUser` do re-verify the
presented credentials before acting and perform no mutation when they do not
resolve to a stored record — the note operations fail with a user-not-found
error, while `deleteUser` answers success "no user found"; but the three
profile updates (`updateName`, `updatePassword`, `updateTheme`) perform no
user-not-found check at all and answer success "OK" either way, mutating
nothing when the conditional `UPDATE` matches no row; and on a resolved
record `addNote` inserts the note joined to the owner by the encrypted
email. -/
theorem C4_authorization :
    (∀ (appKey : String) (today : SDate) (b : Body) (db : Db)
      (key title description date email encE encT encD : String) (nd : SDate),
      b.title = some title → b.key = some key → b.description = some description →
      b.date = some date → b.email = some email →
      jsLength title ≤ 128 → key ≠ "" → title ≠ "" → description ≠ "" → date ≠ "" →
      email ≠ "" → parseDate date = some nd → dateLt nd today = false →
      nd.year ≤ today.year + 10 →
      encryptMessage appKey email = some encE → encryptMessage key title = some encT →
      encryptMessage key description = some encD →
      db.studenti.any (fun r => r.chiave == key && r.email == encE) = false →
      addNote appKey today b db = (db, .error ERROR "user not found")) ∧
    (∀ (appKey : String) (b : Body) (db : Db) (key email date encE : String),
      b.key = some key → b.email = some email → b.date = some date →
      key ≠ "" → email ≠ "" → date ≠ "" →
      encryptMessage appKey email = some encE →
      db.studenti.any (fun r => r.chiave == key && r.email == encE) = false →
      getNotes appKey b db = (db, .error ERROR "user not found")) ∧
    (∀ (appKey : String) (today : SDate) (b : Body) (db : Db) (key email encE : String),
      b.key = some key → b.email = some email →
      key ≠ "" → email ≠ "" →
      encryptMessage appKey email = some encE →
      db.studenti.any (fun r => r.chiave == key && r.email == encE) = false →
      getTodayNotes appKey today b db = (db, .error ERROR "User not found")) ∧
    (∀ (appKey : String) (b : Body) (db : Db) (key email encE : String) (id : Int),
      b.key = some key → b.email = some email → b.id = some id →
      key ≠ "" → email ≠ "" → id ≠ 0 →
      encryptMessage appKey email = some encE →
      db.studenti.any (fun r => r.chiave == key && r.email == encE) = false →
      deleteNote appKey b db = (db, .error ERROR "user not found")) ∧
    (∀ (appKey : String) (b : Body) (db : Db) (key email password encE : String),
      b.key = some key → b.email = some email → b.password = some password →
      key ≠ "" → email ≠ "" → password ≠ "" →
      encryptMessage appKey email = some encE →
      (∀ r ∈ db.studenti,
        (r.chiave == key && r.email == encE && r.password == createHash password) = false) →
      deleteUser appKey b db = (db, .success "no user found")) ∧
    (∀ (appKey : String) (b : Body) (db : Db) (key email password name encE encN : String),
      b.key = some key → b.email = some email → b.password = some password →
      b.name = some name →
      key ≠ "" → email ≠ "" → password ≠ "" → name ≠ "" →
      encryptMessage appKey email = some encE → encryptMessage appKey name = some encN →
      (∀ r ∈ db.studenti,
        (r.chiave == key && r.email == encE && r.password == createHash password) = false) →
      updateName appKey b db = (db, .success "OK")) ∧
    (∀ (appKey : String) (b : Body) (db : Db) (key email password newPassword encE : String),
      b.key = some key → b.email = some email → b.password = some password →
      b.newPassword = some newPassword →
      key ≠ "" → email ≠ "" → password ≠ "" → newPassword ≠ "" →
      encryptMessage appKey email = some encE →
      (∀ r ∈ db.studenti,
        (r.chiave == key && r.email == encE && r.password == createHash password) = false) →
      updatePassword appKey b db = (db, .success "OK")) ∧
    (∀ (appKey : String) (b : Body) (db : Db) (key email password encE : String) (ntema : Int),
      b.key = some key → b.email = some email → b.password = some password →
      b.ntema = some ntema →
      key ≠ "" → email ≠ "" → password ≠ "" → ntema ≠ 0 →
      encryptMessage appKey email = some encE →
      (∀ r ∈ db.studenti,
        (r.chiave == key && r.email == encE && r.password == createHash password) = false) →
      updateTheme appKey b db = (db, .success "OK")) ∧
    (∀ (appKey : String) (today : SDate) (b : Body) (db : Db)
      (key title description date email encE encT encD : String) (nd : SDate),
      b.title = some title → b.key = some key → b.description = some description →
      b.date = some date → b.email = some email →
      jsLength title ≤ 128 → key ≠ "" → title ≠ "" → description ≠ "" → date ≠ "" →
      email ≠ "" → parseDate date = some nd → dateLt nd today = false →
      nd.year ≤ today.year + 10 →
      encryptMessage appKey email = some encE → encryptMessage key title = some encT →
      encryptMessage key description = some encD →
      db.studenti.any (fun r => r.chiave == key && r.email == encE) = true →
      addNote appKey today b db =
        ({ db with
            note := db.note ++ [⟨db.nextNoteId, nd, encT, encD, encE⟩],
            nextNoteId := db.nextNoteId + 1 },
          .success "OK")) := by
  refine ⟨?_, ?_, ?_, ?_, ?_, ?_, ?_, ?_, ?_⟩
  · intro appKey today b db key title description date email encE encT encD nd
      ht hk hd hdate he hlen hkne htne hdne hdatene hene hparse hdlt hyear hE hT hD hno
    unfold addNote
    simp only [ht, hk, hd, hdate, he]
    rw [if_neg (by omega), if_neg (by simp [hkne, htne, hdne, hdatene, hene])]
    simp only [hparse]
    rw [if_neg (by simp [hdlt]; omega)]
    simp only [hE, hT, hD, hno]
    simp
  · intro appKey b db key email date encE hk he hdate hkne hene hdatene hE hno
    unfold getNotes
    simp only [hk, he, hdate]
    rw [if_neg (by simp [hkne, hene, hdatene])]
    simp only [hE, hno]
    simp
  · intro appKey today b db key email encE hk he hkne hene hE hno
    unfold getTodayNotes
    simp only [hk, he]
    rw [if_neg (by simp [hkne, hene])]
    simp only [hE, hno]
    simp
  · intro appKey b db key email encE id hk he hid hkne hene hidne hE hno
    unfold deleteNote
    simp only [hk, he, hid]
    rw [if_neg (by simp [hkne, hene, hidne])]
    simp only [hE, hno]
    simp
  · intro appKey b db key email password encE hk he hp hkne hene hpne hE hno
    unfold deleteUser
    simp only [hk, he, hp]
    rw [if_neg (by simp [hkne, hene, hpne])]
    simp only [hE]
    rw [if_pos (by rw [List.isEmpty_iff, List.filter_eq_nil_iff]; intro r hr; simp [hno r hr])]
  · intro appKey b db key email password name encE encN hk he hp hn hkne hene hpne hnne hE hN hno
    unfold updateName
    simp only [hk, he, hp, hn]
    rw [if_neg (by simp [hkne, hene, hpne, hnne])]
    simp only [hE, hN]
    rw [map_if_id _ _ _ hno]
  · intro appKey b db key email password newPassword encE hk he hp hnp hkne hene hpne hnpne hE hno
    unfold updatePassword
    simp only [hk, he, hp, hnp]
    rw [if_neg (by simp [hkne, hene, hpne, hnpne])]
    simp only [hE]
    rw [map_if_id _ _ _ hno]
  · intro appKey b db key email password encE ntema hk he hp hnt hkne hene hpne hntne hE hno
    unfold updateTheme
    simp only [hk, he, hp, hnt]
    rw [if_neg (by simp [hkne, hene, hpne, hntne])]
    simp only [hE]
    rw [map_if_id _ _ _ hno]
  · intro appKey today b db key title description date email encE encT encD nd
      ht hk hd hdate he hlen hkne htne hdne hdatene hene hparse hdlt hyear hE hT hD hyes
    unfold addNote
    simp only [ht, hk, hd, hdate, he]
    rw [if_neg (by omega), if_neg (by simp [hkne, htne, hdne, hdatene, hene])]
    simp only [hparse]
    rw [if_neg (by simp [hdlt]; omega)]
    simp only [hE, hT, hD, hyes]
    simp


def bodyNoteWrongKey : Body := { key := some keyA, title := some "T", description := some "D", date := some "2030-01-01", email := some "a@x.com" }

def bodyGetNotesWK : Body := { key := some keyA, email := some "a@x.com", date := some "2030-01-01" }

def bodyKeyEmailWK : Body := { key := some keyA, email := some "a@x.com" }

def bodyDelNoteWK : Body := { key := some keyA, email := some "a@x.com", id := some 1 }

def bodyDelUserWK : Body := { key := some keyA, email := some "a@x.com", password := some "pw" }

def bodyUpdNameWK : Body := { key := some keyA, email := some "a@x.com", password := some "pw", name := some "Bob" }

def bodyUpdPwWK : Body := { key := some keyA, email := some "a@x.com", password := some "pw", newPassword := some "pw2" }

def bodyUpdThemeWK : Body := { key := some keyA, email := some "a@x.com", password := some "pw", ntema := some 2 }

def bodyNoteRightKey : Body := { key := some keyB, title := some "T", description := some "D", date := some "2030-01-01", email := some "a@x.com" }

set_option maxRecDepth 1000000 in
/-- Witness for the C4 amended statement on the one-user store, presenting
the wrong per-user key (`keyA` instead of the stored `keyB`) to all eight
operations, and the right key to `addNote`. -/
theorem C4_authorization_witness :
    addNote keyA today26 bodyNoteWrongKey dbAnn = (dbAnn, .error ERROR "user not found") ∧
    getNotes keyA bodyGetNotesWK dbAnn = (dbAnn, .error ERROR "user not found") ∧
    getTodayNotes keyA today26 bodyKeyEmailWK dbAnn = (dbAnn, .error ERROR "User not found") ∧
    deleteNote keyA bodyDelNoteWK dbAnn = (dbAnn, .error ERROR "user not found") ∧
    deleteUser keyA bodyDelUserWK dbAnn = (dbAnn, .success "no user found") ∧
    updateName keyA bodyUpdNameWK dbAnn = (dbAnn, .success "OK") ∧
    updatePassword keyA bodyUpdPwWK dbAnn = (dbAnn, .success "OK") ∧
    updateTheme keyA bodyUpdThemeWK dbAnn = (dbAnn, .success "OK") ∧
    addNote keyA today26 bodyNoteRightKey dbAnn
      = ({ dbAnn with
            note := [⟨1, ⟨2030, 1, 1⟩, encB "T", encB "D", encA "a@x.com"⟩],
            nextNoteId := 2 },
          .success "OK") := by
  refine ⟨?_, ?_, ?_, ?_, ?_, ?_, ?_, ?_, ?_⟩
  · exact C4_authorization.1 keyA today26 bodyNoteWrongKey dbAnn keyA "T" "D"
      "2030-01-01" "a@x.com" (encA "a@x.com") (encA "T") (encA "D") ⟨2030, 1, 1⟩
      rfl rfl rfl rfl rfl (by decide) (by decide) (by decide) (by decide) (by decide)
      (by decide) (by decide) (by decide) (by decide)
      (by decide!) (by decide!) (by decide!) (by decide!)
  · exact C4_authorization.2.1 keyA bodyGetNotesWK dbAnn keyA "a@x.com" "2030-01-01"
      (encA "a@x.com") rfl rfl rfl (by decide) (by decide) (by decide)
      (by decide!) (by decide!)
  · exact C4_authorization.2.2.1 keyA today26 bodyKeyEmailWK dbAnn keyA "a@x.com"
      (encA "a@x.com") rfl rfl (by decide) (by decide) (by decide!) (by decide!)
  · exact C4_authorization.2.2.2.1 keyA bodyDelNoteWK dbAnn keyA "a@x.com"
      (encA "a@x.com") 1 rfl rfl rfl (by decide) (by decide) (by decide)
      (by decide!) (by decide!)
  · exact C4_authorization.2.2.2.2.1 keyA bodyDelUserWK dbAnn keyA "a@x.com" "pw"
      (encA "a@x.com") rfl rfl rfl (by decide) (by decide) (by decide)
      (by decide!) (by decide!)
  · exact C4_authorization.2.2.2.2.2.1 keyA bodyUpdNameWK dbAnn keyA "a@x.com" "pw" "Bob"
      (encA "a@x.com") (encA "Bob") rfl rfl rfl rfl (by decide) (by decide) (by decide)
      (by decide) (by decide!) (by decide!) (by decide!)
  · exact C4_authorization.2.2.2.2.2.2.1 keyA bodyUpdPwWK dbAnn keyA "a@x.com" "pw" "pw2"
      (encA "a@x.com") rfl rfl rfl rfl (by decide) (by decide) (by decide) (by decide)
      (by decide!) (by decide!)
  · exact C4_authorization.2.2.2.2.2.2.2.1 keyA bodyUpdThemeWK dbAnn keyA "a@x.com" "pw"
      (encA "a@x.com") 2 rfl rfl rfl rfl (by decide) (by decide) (by decide) (by decide)
      (by decide!) (by decide!)
  · exact C4_authorization.2.2.2.2.2.2.2.2 keyA today26 bodyNoteRightKey dbAnn keyB "T" "D"
      "2030-01-01" "a@x.com" (encA "a@x.com") (encB "T") (encB "D") ⟨2030, 1, 1⟩
      rfl rfl rfl rfl rfl (by decide) (by decide) (by decide) (by decide) (by decide)
      (by decide) (by decide) (by decide) (by decide)
      (by decide!) (by decide!) (by decide!) (by decide!)

end Pocket
